import Mathlib

set_option maxHeartbeats 1000000
set_option linter.unusedVariables false
set_option linter.unnecessarySeqFocus false

/-!
Shallow embedding of the Gmail agent (`src/agent.py`) and proofs about the
claims of its specification.  Python dictionaries / JSON payloads are
modelled by the inductive type `JVal`; Python operations that can raise are
modelled in `Except String`, where the `String` stands for the exception
message; the mutable `GmailAgent` object together with call counters for
the external services is threaded through a state-and-exception monad `M`.
External collaborators (the OpenAI completion service, the Composio tool
gateway, `json.loads`, `base64.b64decode`+utf-8 decode and the
`datetime` parsing/formatting pair) are oracle parameters in `Env`.
-/

/-- JSON-like Python values that flow through the agent: payloads returned by
the tool gateway, parsed intent-analysis dictionaries and handler results.
Numbers are modelled as rationals (covering both Python ints and the floats
that appear, such as the confidence `0.0`). -/
inductive JVal where
  | null
  | bool (b : Bool)
  | num (q : Rat)
  | str (s : String)
  | arr (items : List JVal)
  | obj (fields : List (String × JVal))

/-- Lookup of a key in an object; `none` when the value is not an object or
the key is absent.  Used in theorem statements to inspect result dicts. -/
def jLookup : JVal → String → Option JVal
  | .obj fs, k => fs.lookup k
  | _, _ => none

/-- Python truthiness (`bool(v)`): `None`, `False`, `0`, `""`, `[]` and
an empty dict are falsy, everything else is truthy. -/
def pyTruthy : JVal → Bool
  | .null => false
  | .bool b => b
  | .num q => decide (q ≠ 0)
  | .str s => decide (s ≠ "")
  | .arr l => !l.isEmpty
  | .obj fs => !fs.isEmpty

/-- Python `str(v)` as used in f-string interpolation.  Scalars are rendered
faithfully; the rendering of containers is abbreviated (no claim depends on
the text of a container rendered through an f-string). -/
def pyStr : JVal → String
  | .null => "None"
  | .bool true => "True"
  | .bool false => "False"
  | .num q => if q.den = 1 then toString q.num else toString q.num ++ "/" ++ toString q.den
  | .str s => s
  | .arr _ => "[...]"
  | .obj _ => "\x7b...\x7d"

/-- Python `d.get(k, default)`: raises `AttributeError` when the receiver is
not a dict. -/
def jGetD : JVal → String → JVal → Except String JVal
  | .obj fs, k, d => .ok ((fs.lookup k).getD d)
  | _, _, _ => .error "AttributeError: object has no attribute get"

/-- Python subscript `d[k]` on a dict: `KeyError` when absent, `TypeError`
when the receiver is not a dict. -/
def jSub : JVal → String → Except String JVal
  | .obj fs, k =>
    match fs.lookup k with
    | some v => .ok v
    | none => .error "KeyError"
  | _, _ => .error "TypeError: object is not subscriptable"

/-- Replace (or add) a field of an object, keeping the original field order,
as Python dict assignment does. -/
def setField : List (String × JVal) → String → JVal → List (String × JVal)
  | [], k, v => [(k, v)]
  | (k', v') :: rest, k, v =>
    if k' = k then (k, v) :: rest else (k', v') :: setField rest k v

/-- Python subscript assignment `d[k] = v`; `TypeError` on a non-dict. -/
def jSet : JVal → String → JVal → Except String JVal
  | .obj fs, k, v => .ok (.obj (setField fs k v))
  | _, _, _ => .error "TypeError: object does not support item assignment"

/-- Python `len(v)`: defined for strings, lists and dicts; `TypeError`
otherwise. -/
def pyLen : JVal → Except String Nat
  | .str s => .ok s.length
  | .arr l => .ok l.length
  | .obj fs => .ok fs.length
  | _ => .error "TypeError: object has no len"

/-- Python slice `v[:n]` on strings and lists; `TypeError` otherwise. -/
def pySliceTo : JVal → Nat → Except String JVal
  | .str s, n => .ok (.str (s.take n))
  | .arr l, n => .ok (.arr (l.take n))
  | _, _ => .error "TypeError: object is not subscriptable"

/-- Python `v + lit` for a string literal on the right: succeeds only when
`v` is itself a string (a list plus a string raises `TypeError`). -/
def pyAddStr : JVal → String → Except String JVal
  | .str s, t => .ok (.str (s ++ t))
  | _, _ => .error "TypeError: can only concatenate str to str"

/-- Python `lit + v` for a string literal on the left. -/
def pyStrAdd (s : String) : JVal → Except String JVal
  | .str t => .ok (.str (s ++ t))
  | _ => .error "TypeError: can only concatenate str to str"

/-- Python indexing `v[i]` with a non-negative index. -/
def pyIdx : JVal → Nat → Except String JVal
  | .arr l, i =>
    match l.get? i with
    | some v => .ok v
    | none => .error "IndexError: list index out of range"
  | .str s, i =>
    match s.data.get? i with
    | some c => .ok (.str (String.mk [c]))
    | none => .error "IndexError: string index out of range"
  | _, _ => .error "TypeError: object is not subscriptable"

/-- Equality of a value against a string literal, the semantics of Python
`v == "lit"` (values of other types are simply unequal, no exception). -/
def JVal.isStrEq : JVal → String → Bool
  | .str s, t => s = t
  | _, _ => false

/-- Coerce to the underlying string, the implicit requirement of Python
string methods such as `.replace`; `AttributeError` on other values. -/
def asStr : JVal → Except String String
  | .str s => .ok s
  | _ => .error "AttributeError: object has no attribute replace"

/-- Substring test, the semantics of Python `needle in haystack` on
strings. -/
def strContainsSub (hay needle : String) : Bool :=
  needle.isEmpty ||
    (List.range (hay.length + 1)).any fun i =>
      needle.data.isPrefixOf (hay.data.drop i)

/-- Python iteration `for x in v`: lists yield elements, strings yield
one-character strings, dicts yield their keys; other values raise. -/
def pyIter : JVal → Except String (List JVal)
  | .arr l => .ok l
  | .str s => .ok (s.data.map fun c => .str (String.mk [c]))
  | .obj fs => .ok (fs.map fun kv => .str kv.1)
  | _ => .error "TypeError: object is not iterable"

/-- Python membership `k in v` for a string key: key test for dicts,
element test for lists, substring test for strings. -/
def pyContains (v : JVal) (k : String) : Except String Bool :=
  match v with
  | .obj fs => .ok (fs.lookup k).isSome
  | .arr l => .ok (l.any fun x => x.isStrEq k)
  | .str s => .ok (strContainsSub s k)
  | _ => .error "TypeError: argument is not a container"

/-- Nesting depth of a value; the fuel fed to `jEqF` so that the fuel never
runs out on the left argument. -/
def JVal.depth : JVal → Nat
  | .arr l =>
    1 + (l.attach.map fun (x : Subtype (fun y => y ∈ l)) =>
      have : sizeOf x.val < 1 + sizeOf l := by
        have h := List.sizeOf_lt_of_mem x.property
        omega
      JVal.depth x.val).foldr max 0
  | .obj fs =>
    1 + (fs.attach.map fun (kv : Subtype (fun y => y ∈ fs)) =>
      have : sizeOf kv.val.2 < 1 + sizeOf fs := by
        have h := List.sizeOf_lt_of_mem kv.property
        have h2 : sizeOf kv.val.2 < sizeOf kv.val := by
          rcases kv with ⟨⟨k, v⟩, hm⟩
          simp
        omega
      JVal.depth kv.val.2).foldr max 0
  | _ => 1

/-- Fuel-indexed equality test on `JVal` (the fuel dominates the depth of
the left argument, so `jEq` below is Python `==`: dict comparison is
key-based, list comparison pointwise). -/
def jEqF : Nat → JVal → JVal → Bool
  | 0, _, _ => false
  | _ + 1, .null, .null => true
  | _ + 1, .bool a, .bool b => a = b
  | _ + 1, .num a, .num b => a = b
  | _ + 1, .str a, .str b => a = b
  | f + 1, .arr a, .arr b =>
    a.length = b.length && (a.zip b).all fun p => jEqF f p.1 p.2
  | f + 1, .obj a, .obj b =>
    a.length = b.length && a.all fun kv =>
      match b.lookup kv.1 with
      | some v' => jEqF f kv.2 v'
      | none => false
  | _ + 1, _, _ => false

/-- Python `a == b` on payload values. -/
def jEq (a b : JVal) : Bool := jEqF a.depth a b

/-- Python `a != b`. -/
def jNe (a b : JVal) : Bool := !jEq a b

/-- Python whitespace as recognised by `str.strip` and `\s`. -/
def pyIsSpace (c : Char) : Bool :=
  c = ' ' || c = '\t' || c = '\n' || c = '\r' || c = '\x0b' || c = '\x0c'

/-- Python `str.strip()`. -/
def pyStrip (s : String) : String :=
  String.mk (((s.data.dropWhile pyIsSpace).reverse.dropWhile pyIsSpace).reverse)

/-- Python single-character `str.replace(a, b)` (global, character-wise). -/
def pyReplaceChar (s : String) (a b : Char) : String :=
  String.mk (s.data.map fun c => if c = a then b else c)

/-- Python `"sep".join(parts)`. -/
def pyJoin (sep : String) (parts : List String) : String :=
  String.intercalate sep parts

/-- Python `"c" * n` for building separator rules. -/
def strRepeat (s : String) (n : Nat) : String :=
  String.join (List.replicate n s)

/-- Translation step of the base64url decode in `_extract_email_content`:
`body_data.replace('-', '+').replace('_', '/')`. -/
def b64urlTranslate (s : String) : String :=
  pyReplaceChar (pyReplaceChar s '-' '+') '_' '/'

/-- One unrolling bound of the padding loop `while len(body_data) % 4:
body_data += '='`; the loop appends at most three `'='` characters, so a
fuel of three reproduces it exactly (the guard is tested before each
append). -/
def b64padLoop : Nat → String → String
  | 0, s => s
  | n + 1, s => if s.length % 4 = 0 then s else b64padLoop n (s ++ "=")

/-- Padding step of the base64url decode. -/
def b64pad (s : String) : String := b64padLoop 3 s

/-- Length of the prefix of a character list up to and including its last
newline, when it has one. -/
def lastNlLen (l : List Char) : Option Nat :=
  match l with
  | [] => none
  | c :: rest =>
    match lastNlLen rest with
    | some n => some (n + 1)
    | none => if c = '\n' then some 1 else none

/-- The substitution `re.sub(r'\n\s*\n', '\n\n', text)` of
`_clean_email_text`: a newline followed by a greedy whitespace run that
still ends in a newline collapses to a blank line; scanning resumes after
the replaced region.  Fuel-indexed with fuel at least the list length. -/
def collapseBlankLines : Nat → List Char → List Char
  | 0, l => l
  | _ + 1, [] => []
  | fuel + 1, c :: rest =>
    if c = '\n' then
      match lastNlLen (rest.takeWhile pyIsSpace) with
      | some n => '\n' :: '\n' :: collapseBlankLines fuel (rest.drop n)
      | none => c :: collapseBlankLines fuel rest
    else c :: collapseBlankLines fuel rest

/-- The substitution `re.sub(r' +', ' ', text)`: runs of spaces collapse to
a single space. -/
def collapseSpaces : List Char → List Char
  | [] => []
  | [c] => [c]
  | c1 :: c2 :: rest =>
    if c1 = ' ' && c2 = ' ' then collapseSpaces (c2 :: rest)
    else c1 :: collapseSpaces (c2 :: rest)

/-- Embedding of `GmailAgent._clean_email_text`. -/
def cleanEmailText (text : String) : String :=
  if text = "" then ""
  else
    pyStrip (String.mk (collapseSpaces
      (collapseBlankLines text.data.length text.data)))

/-- Helper for the tag-stripping regex `re.sub('<[^<]+?>', '', ...)`: given
the characters following a `'<'`, the length of the shortest run of at
least one non-`'<'` character terminated by `'>'`, counting the closing
`'>'`; `none` when a `'<'` intervenes or the list runs out. -/
def findTagEnd : List Char → Nat → Option Nat
  | [], _ => none
  | c :: rest, k =>
    if c = '<' then none
    else if c = '>' && k ≥ 1 then some (k + 1)
    else findTagEnd rest (k + 1)

/-- Fuel-indexed scan applying the tag-stripping substitution. -/
def stripHtmlAux : Nat → List Char → List Char
  | 0, l => l
  | _ + 1, [] => []
  | fuel + 1, c :: rest =>
    if c = '<' then
      match findTagEnd rest 0 with
      | some n => stripHtmlAux fuel (rest.drop n)
      | none => c :: stripHtmlAux fuel rest
    else c :: stripHtmlAux fuel rest

/-- The substitution `re.sub('<[^<]+?>', '', decoded)` used on HTML body
parts. -/
def pyStripTags (s : String) : String :=
  String.mk (stripHtmlAux s.data.length s.data)

/-- Loop of `_extract_email_content` over `payload.get("parts", [])`.  The
parameter `dec` is the oracle for `base64.b64decode(...).decode('utf-8',
errors='ignore')`; an `.error` models the `binascii.Error` raised on
malformed input. -/
def extractFromParts (dec : String → Except String String) :
    List JVal → Except String (Option String)
  | [] => pure none
  | part :: rest => do
    let mt ← jGetD part "mimeType" .null
    if mt.isStrEq "text/plain" then do
      let bodyObj ← jGetD part "body" (.obj [])
      let bd ← jGetD bodyObj "data" (.str "")
      if pyTruthy bd then do
        let d ← asStr bd
        let decoded ← dec (b64pad (b64urlTranslate d))
        pure (some (cleanEmailText decoded))
      else extractFromParts dec rest
    else if mt.isStrEq "text/html" then do
      let bodyObj ← jGetD part "body" (.obj [])
      let bd ← jGetD bodyObj "data" (.str "")
      if pyTruthy bd then do
        let d ← asStr bd
        let decoded ← dec (b64pad (b64urlTranslate d))
        pure (some (cleanEmailText (pyStripTags decoded)))
      else extractFromParts dec rest
    else extractFromParts dec rest

/-- Body of `GmailAgent._extract_email_content`, before the enclosing
`try`/`except`. -/
def extractEmailContentBody (dec : String → Except String String)
    (msg : JVal) : Except String String := do
  let payload ← jGetD msg "payload" (.obj [])
  let partsV ← jGetD payload "parts" (.arr [])
  let parts ← pyIter partsV
  let fromParts ← extractFromParts dec parts
  match fromParts with
  | some s => pure s
  | none => do
    let bodyObj ← jGetD payload "body" (.obj [])
    let bd ← jGetD bodyObj "data" .null
    if pyTruthy bd then do
      let bdSub ← jSub bodyObj "data"
      let d ← asStr bdSub
      let decoded ← dec (b64pad (b64urlTranslate d))
      pure (cleanEmailText decoded)
    else pure ""

/-- Embedding of `GmailAgent._extract_email_content`: any exception in the
body is caught and turned into the empty string. -/
def extractEmailContent (dec : String → Except String String)
    (msg : JVal) : String :=
  match extractEmailContentBody dec msg with
  | .ok s => s
  | .error _ => ""

/-- Timestamp display shared by the three list formatters: the `Z` suffix
is rewritten to `+00:00`, then the oracle `pd` stands for
`datetime.fromisoformat(...)` composed with `strftime("%Y-%m-%d %H:%M")`;
on any parse failure the raw value is shown (the bare `except`). -/
def formatTimestamp (pd : String → Option String) (date : JVal) : String :=
  match date with
  | .str d => (pd (d.replace "Z" "+00:00")).getD d
  | v => pyStr v

/-- One iteration of the `_format_emails` loop (message number `i`). -/
def formatEmailItem (pd : String → Option String) (i : Nat) (msg : JVal) :
    Except String (List String) := do
  let subject ← jGetD msg "subject" (.str "No Subject")
  let sender ← jGetD msg "sender" (.str "Unknown Sender")
  let date ← jGetD msg "messageTimestamp" (.str "")
  let previewObj ← jGetD msg "preview" (.obj [])
  let preview ← jGetD previewObj "body" (.str "")
  let formattedDate := if pyTruthy date then formatTimestamp pd date else "Unknown Date"
  let previewLines ←
    if pyTruthy preview then do
      let n ← pyLen preview
      let pv ←
        if n > 200 then do
          let sl ← pySliceTo preview 200
          pyAddStr sl "..."
        else pure preview
      pure ["📝 Preview: " ++ pyStr pv]
    else pure ([] : List String)
  pure (["\n📨 Email #" ++ toString i,
         "📋 Subject: " ++ pyStr subject,
         "👤 From: " ++ pyStr sender,
         "📅 Date: " ++ formattedDate]
        ++ previewLines ++ [strRepeat "-" 40])

/-- The `enumerate(messages, 1)` loop of `_format_emails`. -/
def formatEmailsAux (pd : String → Option String) :
    Nat → List JVal → Except String (List String)
  | _, [] => pure []
  | i, msg :: rest => do
    let ls ← formatEmailItem pd i msg
    let more ← formatEmailsAux pd (i + 1) rest
    pure (ls ++ more)

/-- Embedding of `GmailAgent._format_emails` (returns the list of report
lines, as the source returns a Python list). -/
def formatEmails (pd : String → Option String) (messages : JVal) :
    Except String (List String) := do
  if !pyTruthy messages then
    pure ["📭 No emails found matching your criteria."]
  else do
    let n ← pyLen messages
    let items ← pyIter messages
    let body ← formatEmailsAux pd 1 items
    pure (("📧 Found " ++ toString n ++ " email(s):") :: strRepeat "=" 60 :: body)

/-- One iteration of the `_format_emails_with_full_content` loop. -/
def formatFullItem (pd : String → Option String)
    (dec : String → Except String String) (i : Nat) (msg : JVal) :
    Except String (List String) := do
  let subject ← jGetD msg "subject" (.str "No Subject")
  let sender ← jGetD msg "sender" (.str "Unknown Sender")
  let date ← jGetD msg "messageTimestamp" (.str "")
  let content := extractEmailContent dec msg
  let formattedDate := if pyTruthy date then formatTimestamp pd date else "Unknown Date"
  let contentLines :=
    if content ≠ "" then
      ["📝 Full Content: " ++
        (if content.length > 1000 then content.take 1000 ++ "..." else content)]
    else ["📝 No content available"]
  pure (["\n📨 Email #" ++ toString i,
         "📋 Subject: " ++ pyStr subject,
         "👤 From: " ++ pyStr sender,
         "📅 Date: " ++ formattedDate]
        ++ contentLines ++ [strRepeat "-" 40])

/-- The `enumerate` loop of `_format_emails_with_full_content`. -/
def formatFullAux (pd : String → Option String)
    (dec : String → Except String String) :
    Nat → List JVal → Except String (List String)
  | _, [] => pure []
  | i, msg :: rest => do
    let ls ← formatFullItem pd dec i msg
    let more ← formatFullAux pd dec (i + 1) rest
    pure (ls ++ more)

/-- Embedding of `GmailAgent._format_emails_with_full_content` (returns the
joined report string, as the source does). -/
def formatEmailsWithFullContent (pd : String → Option String)
    (dec : String → Except String String) (messages : JVal) :
    Except String String := do
  if !pyTruthy messages then
    pure "📭 No emails found matching your criteria."
  else do
    let n ← pyLen messages
    let items ← pyIter messages
    let body ← formatFullAux pd dec 1 items
    pure (pyJoin "\n"
      (("📧 Found " ++ toString n ++ " email(s):") :: strRepeat "=" 60 :: body))

/-- One iteration of the `_format_drafts` loop. -/
def formatDraftItem (pd : String → Option String) (i : Nat) (draft : JVal) :
    Except String (List String) := do
  let message ← jGetD draft "message" (.obj [])
  let subject ← jGetD message "subject" (.str "No Subject")
  let date ← jGetD message "messageTimestamp" (.str "")
  let previewObj ← jGetD message "preview" (.obj [])
  let preview ← jGetD previewObj "body" (.str "")
  let formattedDate := if pyTruthy date then formatTimestamp pd date else "Unknown Date"
  let previewLines ←
    if pyTruthy preview then do
      let n ← pyLen preview
      let pv ←
        if n > 150 then do
          let sl ← pySliceTo preview 150
          pyAddStr sl "..."
        else pure preview
      pure ["📄 Content: " ++ pyStr pv]
    else pure ([] : List String)
  pure (["\n📝 Draft #" ++ toString i,
         "📋 Subject: " ++ pyStr subject,
         "📅 Created: " ++ formattedDate]
        ++ previewLines ++ [strRepeat "-" 30])

/-- The `enumerate(drafts, 1)` loop of `_format_drafts`. -/
def formatDraftsAux (pd : String → Option String) :
    Nat → List JVal → Except String (List String)
  | _, [] => pure []
  | i, draft :: rest => do
    let ls ← formatDraftItem pd i draft
    let more ← formatDraftsAux pd (i + 1) rest
    pure (ls ++ more)

/-- Embedding of `GmailAgent._format_drafts`. -/
def formatDrafts (pd : String → Option String) (drafts : JVal) :
    Except String (List String) := do
  if !pyTruthy drafts then
    pure ["📝 No drafts found."]
  else do
    let n ← pyLen drafts
    let items ← pyIter drafts
    let body ← formatDraftsAux pd 1 items
    pure (("📝 Found " ++ toString n ++ " draft(s):") :: strRepeat "=" 50 :: body)

/-- List-comprehension filter of `_format_labels`: keep the labels whose
`type` is (`want = true`) or is not (`want = false`) the string
`"system"`. -/
def labelsFilter (want : Bool) : List JVal → Except String (List JVal)
  | [] => pure []
  | l :: rest => do
    let t ← jGetD l "type" .null
    let more ← labelsFilter want rest
    pure (if (t.isStrEq "system") = want then l :: more else more)

/-- Bullet lines for a group of labels. -/
def labelNameLines : List JVal → Except String (List String)
  | [] => pure []
  | l :: rest => do
    let name ← jGetD l "name" (.str "Unknown")
    let more ← labelNameLines rest
    pure (("  • " ++ pyStr name) :: more)

/-- Embedding of `GmailAgent._format_labels`. -/
def formatLabels (labels : JVal) : Except String (List String) := do
  if !pyTruthy labels then
    pure ["🏷️ No labels found."]
  else do
    let n ← pyLen labels
    let items ← pyIter labels
    let systemLabels ← labelsFilter true items
    let userLabels ← labelsFilter false items
    let sysLines ←
      if !systemLabels.isEmpty then do
        let names ← labelNameLines systemLabels
        pure ("\n📋 System Labels:" :: names)
      else pure ([] : List String)
    let userLines ←
      if !userLabels.isEmpty then do
        let names ← labelNameLines userLabels
        pure ("\n👤 Your Labels:" :: names)
      else pure ([] : List String)
    pure (("🏷️ Found " ++ toString n ++ " label(s):") :: strRepeat "=" 40
          :: (sysLines ++ userLines))

/-- One iteration of the `_format_contacts` loop. -/
def formatContactItem (i : Nat) (person : JVal) :
    Except String (List String) := do
  let names ← jGetD person "names" (.arr [])
  let emails ← jGetD person "emailAddresses" (.arr [])
  let name ←
    if pyTruthy names then do
      let n0 ← pyIdx names 0
      jGetD n0 "displayName" (.str "Unknown")
    else pure (JVal.str "Unknown")
  let email ←
    if pyTruthy emails then do
      let e0 ← pyIdx emails 0
      jGetD e0 "value" (.str "No email")
    else pure (JVal.str "No email")
  pure ["\n👤 Contact #" ++ toString i,
        "📛 Name: " ++ pyStr name,
        "📧 Email: " ++ pyStr email,
        strRepeat "-" 30]

/-- The `enumerate(connections, 1)` loop of `_format_contacts`. -/
def formatContactsAux : Nat → List JVal → Except String (List String)
  | _, [] => pure []
  | i, person :: rest => do
    let ls ← formatContactItem i person
    let more ← formatContactsAux (i + 1) rest
    pure (ls ++ more)

/-- Body of `GmailAgent._format_contacts`, before its own
`try`/`except`. -/
def formatContactsBody (responseData : JVal) : Except String String := do
  let noConn ←
    if !pyTruthy responseData then pure true
    else do
      let c ← pyContains responseData "connections"
      pure !c
  if noConn then pure "👥 No contacts found."
  else do
    let connections ← jGetD responseData "connections" (.arr [])
    let n ← pyLen connections
    let people ← pyIter connections
    let body ← formatContactsAux 1 people
    pure (pyJoin "\n"
      (("👥 Found " ++ toString n ++ " contact(s):") :: strRepeat "=" 40 :: body))

/-- Embedding of `GmailAgent._format_contacts`: exceptions degrade to an
error string inside this formatter. -/
def formatContacts (responseData : JVal) : String :=
  match formatContactsBody responseData with
  | .ok s => s
  | .error e => "Error formatting contacts: " ++ e

/-- Body of `GmailAgent._format_profile`, before its own `try`/`except`. -/
def formatProfileBody (profileData : JVal) : Except String String := do
  if !pyTruthy profileData then pure "👤 No profile data found."
  else do
    let emailAddress ← jGetD profileData "emailAddress" (.str "Unknown")
    let messagesTotal ← jGetD profileData "messagesTotal" (.num 0)
    let threadsTotal ← jGetD profileData "threadsTotal" (.num 0)
    let historyId ← jGetD profileData "historyId" (.str "N/A")
    pure (pyJoin "\n"
      ["👤 Gmail Profile Information:",
       strRepeat "=" 40,
       "📧 Email Address: " ++ pyStr emailAddress,
       "📬 Total Messages: " ++ pyStr messagesTotal,
       "🧵 Total Threads: " ++ pyStr threadsTotal,
       "🕰️ History ID: " ++ pyStr historyId])

/-- Embedding of `GmailAgent._format_profile`: exceptions degrade to an
error string inside this formatter. -/
def formatProfile (profileData : JVal) : String :=
  match formatProfileBody profileData with
  | .ok s => s
  | .error e => "Error formatting profile: " ++ e

/-- One iteration of the `for item in result` loop of `_format_result`.
Note that the contacts branch reproduces the source's
`formatted_output.extend(self._format_contacts(...))`, which extends the
line list with the characters of the returned string one by one. -/
def formatResultItem (pd : String → Option String) (item : JVal) :
    Except String (List String) := do
  let successful ← jGetD item "successful" (.bool false)
  if !pyTruthy successful then do
    let err ← jGetD item "error" (.str "Unknown error")
    pure ["❌ Error: " ++ pyStr err]
  else do
    let data ← jGetD item "data" (.obj [])
    let hasMessages ← pyContains data "messages"
    if hasMessages then do
      let ms ← jSub data "messages"
      formatEmails pd ms
    else do
      let hasDrafts ← pyContains data "drafts"
      if hasDrafts then do
        let ds ← jSub data "drafts"
        formatDrafts pd ds
      else do
        let hasLabels ← pyContains data "labels"
        if hasLabels then do
          let ls ← jSub data "labels"
          formatLabels ls
        else do
          let hasResp ← pyContains data "response_data"
          if hasResp then do
            let rd ← jSub data "response_data"
            pure ((formatContacts rd).data.map fun c => String.mk [c])
          else do
            let hasEmail ← pyContains data "emailAddress"
            if hasEmail then pure [formatProfile data]
            else pure ["✅ Operation completed successfully"]

/-- The whole `for item in result` loop of `_format_result`. -/
def formatItems (pd : String → Option String) :
    List JVal → Except String (List String)
  | [] => pure []
  | it :: rest => do
    let ls ← formatResultItem pd it
    let more ← formatItems pd rest
    pure (ls ++ more)

/-- Is this value a Python list? (`isinstance(result, list)`). -/
def JVal.isArr : JVal → Bool
  | .arr _ => true
  | _ => false

/-- Body of `GmailAgent._format_result`, before its `try`/`except`.  The
`query` parameter is accepted and ignored, exactly as in the source. -/
def formatResultBody (pd : String → Option String) (result : JVal)
    (query : String) : Except String String := do
  if !pyTruthy result || !result.isArr then
    pure "No data returned from the operation."
  else do
    let items ← pyIter result
    let lines ← formatItems pd items
    pure (if lines.isEmpty then "✅ Operation completed successfully"
          else pyJoin "\n" lines)

/-- Embedding of `GmailAgent._format_result`: any exception anywhere in the
loop is caught here, replacing the whole report. -/
def formatResult (pd : String → Option String) (result : JVal)
    (query : String) : String :=
  match formatResultBody pd result query with
  | .ok s => s
  | .error e => "Error formatting result: " ++ e

/-- Mutable fields of the single `GmailAgent` object: the account identifier
and auth-config id given to `__init__`, and the three initially-`None`
handles `tools`, `connected_account` and `connection_request`.  Handles are
opaque and modelled as numbers. -/
structure AgentState where
  userEmail : String
  authConfigId : String
  tools : Option Nat
  connectedAccount : Option Nat
  connectionRequest : Option Nat

/-- Call counters for the external services, the observable of the spec's
"call counter in tests".  The intent-classification completion request is
counted separately from the handler-level completion requests. -/
structure Trace where
  classifierCalls : Nat
  completionCalls : Nat
  gatewayCalls : Nat
  authInitiations : Nat

/-- Agent state together with the counters. -/
structure World where
  st : AgentState
  tr : Trace

/-- State-and-exception monad for the agent methods: Python exceptions
propagate as `.error` while the mutated state and the counters persist
(Python does not roll back side effects on an exception). -/
def M (α : Type) : Type := World → Except String α × World

instance : Monad M where
  pure a := fun w => (.ok a, w)
  bind x f := fun w =>
    match x w with
    | (.ok a, w') => f a w'
    | (.error e, w') => (.error e, w')

/-- Raise a Python exception. -/
def pyRaise {α : Type} (e : String) : M α := fun w => (.error e, w)

/-- Lift a possibly-raising pure operation. -/
def liftE {α : Type} (x : Except String α) : M α := fun w => (x, w)

/-- Python `try: body except Exception as e: handler(e)`. -/
def tryPy {α : Type} (body : M α) (handler : String → M α) : M α := fun w =>
  match body w with
  | (.ok a, w') => (.ok a, w')
  | (.error e, w') => handler e w'

/-- Read the agent object. -/
def getSt : M AgentState := fun w => (.ok w.st, w)

/-- Mutate the agent object. -/
def modifySt (f : AgentState → AgentState) : M Unit := fun w =>
  (.ok (), ⟨f w.st, w.tr⟩)

/-- One choice of a completion response; `content` is
`choice.message.content`, which the service may return as `None`. -/
structure Choice where
  content : Option String

/-- A completion-service response. -/
structure Completion where
  choices : List Choice

/-- A completion request: system instruction, user message, the `tools`
argument when one is passed (carrying the current `self.tools` handle), and
whether the strict-JSON response format is requested. -/
structure CompReq where
  system : String
  user : JVal
  toolsArg : Option (Option Nat)
  jsonMode : Bool

/-- Oracles for the external collaborators.  `complete` is
`openai.chat.completions.create`; `gateway` is
`composio.provider.handle_tool_calls`; `initiate` is
`composio.connected_accounts.initiate` (returning a connection-request
handle and the redirect URL); `jsonLoads` is `json.loads`; `b64` is
`base64.b64decode(..).decode('utf-8', errors='ignore')`; `parseDate` is
`datetime.fromisoformat` composed with `strftime`.  An `.error` (or `none`
for `parseDate`) models the corresponding Python exception. -/
structure Env where
  complete : CompReq → Except String Completion
  gateway : Completion → Except String JVal
  initiate : String → String → Except String (Nat × String)
  jsonLoads : String → Except String JVal
  b64 : String → Except String String
  parseDate : String → Option String

/-- Issue a completion request from the intent classifier, bumping the
classifier counter. -/
def callClassifierCompletion (env : Env) (req : CompReq) : M Completion :=
  fun w =>
    (env.complete req,
     ⟨w.st, ⟨w.tr.classifierCalls + 1, w.tr.completionCalls,
             w.tr.gatewayCalls, w.tr.authInitiations⟩⟩)

/-- Issue a completion request from a handler, the composer or the refiner,
bumping the completion counter. -/
def callCompletion (env : Env) (req : CompReq) : M Completion :=
  fun w =>
    (env.complete req,
     ⟨w.st, ⟨w.tr.classifierCalls, w.tr.completionCalls + 1,
             w.tr.gatewayCalls, w.tr.authInitiations⟩⟩)

/-- Forward a completion response to the tool gateway, bumping the gateway
counter. -/
def callGateway (env : Env) (resp : Completion) : M JVal :=
  fun w =>
    (env.gateway resp,
     ⟨w.st, ⟨w.tr.classifierCalls, w.tr.completionCalls,
             w.tr.gatewayCalls + 1, w.tr.authInitiations⟩⟩)

/-- Start the external auth handshake, bumping the initiation counter. -/
def callInitiate (env : Env) (userId authConfigId : String) :
    M (Nat × String) :=
  fun w =>
    (env.initiate userId authConfigId,
     ⟨w.st, ⟨w.tr.classifierCalls, w.tr.completionCalls,
             w.tr.gatewayCalls, w.tr.authInitiations + 1⟩⟩)

/-- Python `response.choices[0]`. -/
def pyChoice0 (resp : Completion) : Except String Choice :=
  match resp.choices with
  | c :: _ => .ok c
  | [] => .error "IndexError: list index out of range"

/-- Python `content or default` for the optional message content. -/
def contentOrDefault (c : Option String) (d : String) : String :=
  match c with
  | some s => if s.isEmpty then d else s
  | none => d

/-- The fixed allowlist `self.gmail_tools`. -/
def gmailTools : List String :=
  ["GMAIL_CREATE_EMAIL_DRAFT", "GMAIL_DELETE_DRAFT", "GMAIL_DELETE_MESSAGE",
   "GMAIL_FETCH_EMAILS", "GMAIL_FETCH_MESSAGE_BY_MESSAGE_ID",
   "GMAIL_GET_ATTACHMENT", "GMAIL_LIST_DRAFTS", "GMAIL_MOVE_TO_TRASH",
   "GMAIL_PATCH_LABEL", "GMAIL_REPLY_TO_THREAD", "GMAIL_SEARCH_PEOPLE",
   "GMAIL_SEND_DRAFT", "GMAIL_SEND_EMAIL", "GMAIL_ADD_LABEL_TO_EMAIL",
   "GMAIL_CREATE_LABEL", "GMAIL_FETCH_MESSAGE_BY_THREAD_ID",
   "GMAIL_GET_CONTACTS", "GMAIL_GET_PEOPLE", "GMAIL_GET_PROFILE",
   "GMAIL_LIST_LABELS", "GMAIL_LIST_THREADS", "GMAIL_MODIFY_THREAD_LABELS",
   "GMAIL_REMOVE_LABEL", "GMAIL_REPLY_TO_EMAIL", "GMAIL_MARK_AS_READ",
   "GMAIL_MARK_AS_UNREAD", "GMAIL_SEARCH_EMAILS", "GMAIL_CREATE_DRAFT"]

/-- Python-call semantics of `GmailAgent.__init__`: both parameters are
required (no defaults), so a call supplying only one of them raises
`TypeError` before any object is created.  A supplied argument is `some`
(its value may itself be `None`-like, which is accepted). -/
def gmailAgentNew (userEmailArg authConfigIdArg : Option String) :
    Except String AgentState :=
  match userEmailArg, authConfigIdArg with
  | some u, some a => .ok ⟨u, a, none, none, none⟩
  | _, _ =>
    .error "TypeError: __init__ missing 1 required positional argument: user_email"

/-- The module-level construction of the single Session object:
`gmail_agent = GmailAgent(auth_config_id=os.getenv("GMAIL_AUTH_CONFIG_ID"))`
passes only the auth-config id and omits the required `user_email`
argument. -/
def moduleInit (gmailAuthConfigId : String) : Except String AgentState :=
  gmailAgentNew none (some gmailAuthConfigId)

/-- Embedding of `GmailAgent.is_authenticated`. -/
def isAuthenticated (st : AgentState) : Bool :=
  st.connectedAccount.isSome && st.tools.isSome

/-- The fixed reply text of `initiate_auth` on success. -/
def authUrlMsg (url : String) : String :=
  "Please visit this URL to authenticate Gmail: " ++ url ++
  "\nAfter completing, send \x27Auth complete\x27 or your next query."

/-- Embedding of `GmailAgent.initiate_auth`: starts the handshake, stores
the connection request on success, and converts any exception into an
error text returned as a normal string. -/
def initiateAuth (env : Env) : M String :=
  tryPy
    (do
      let st ← getSt
      let hu ← callInitiate env st.userEmail st.authConfigId
      modifySt fun s =>
        ⟨s.userEmail, s.authConfigId, s.tools, s.connectedAccount, some hu.1⟩
      pure (authUrlMsg hu.2))
    (fun e => pure ("Error initiating auth: " ++ e))

/-- The system instruction of `analyze_user_intent` (verbatim from the
source, with braces escaped). -/
def analyzeSystemInstr : String :=
  "You are an intent analyzer for Gmail operations. Analyze the user query to determine the intent from the following actions:\n            - AUTH: For queries like \x27authenticate gmail\x27, \x27connect gmail\x27, \x27login to gmail\x27\n            - LIST: List emails, drafts, labels, threads (e.g., \x27show emails\x27, \x27list drafts\x27)\n            - SEARCH: Search emails or people, including spam (e.g., \x27find emails from john\x27, \x27fetch spam mail\x27)\n            - SEND: Send an email (e.g., \x27send email to john@example.com\x27)\n            - REPLY: Reply to an email/thread (e.g., \x27reply to latest email\x27)\n            - MARK_READ: Mark emails as read (e.g., \x27mark email as read\x27)\n            - MARK_UNREAD: Mark emails as unread (e.g., \x27mark email as unread\x27)\n            - DELETE: Delete emails or drafts, including spam (e.g., \x27delete spam emails\x27)\n            - MOVE_TO_TRASH: Move emails to trash (e.g., \x27move emails from john to trash\x27)\n            - READ: Read emails with full content (e.g., \x27read emails from john@example.com\x27)\n            - GET_PROFILE: Get Gmail profile info (e.g., \x27get my profile\x27, \x27show profile\x27)\n            - CREATE_DRAFT: Create a draft email\n            - SEND_DRAFT: Send an existing draft\n            - CREATE_LABEL: Create a new label (e.g., \x27create a label called fetch.ai\x27)\n            - ADD_LABEL: Add labels to emails\n            - REMOVE_LABEL: Remove labels from emails\n            - MODIFY_THREAD_LABELS: Modify thread labels\n            - PATCH_LABEL: Update label properties\n            - GET_CONTACTS: Get contact list (e.g., \x27list my contacts\x27)\n            - SEARCH_PEOPLE: Search for people\n            - GET_ATTACHMENT: Download email attachments\n            - LIST_THREADS: List email threads\n            For SEND, extract recipient, subject, content, context. For CREATE_LABEL, extract label_name. For SEARCH/DELETE/READ/MOVE_TO_TRASH, include \x27is_spam: true\x27 for spam-related queries or \x27sender\x27 for email-specific queries. For others, extract relevant parameters (e.g., query, email_id, label_id).\n            Boost confidence (0.8-1.0) for clear matches. If ambiguous, pick best fit but note clarification needed.\n            Return JSON: \x7b\"intent\": \"ACTION_NAME\", \"parameters\": \x7b...\x7d, \"confidence\": float\x7d"

/-- The fallback intent result returned on any classification failure. -/
def unknownIntentResult : JVal :=
  .obj [("intent", .str "UNKNOWN"), ("parameters", .obj []),
        ("confidence", .num 0)]

/-- Body of `analyze_user_intent` before its `try`/`except`: one completion
request in strict-JSON mode, then `json.loads` of
`response.choices[0].message.content`. -/
def analyzeBodyM (env : Env) (message : String) : M JVal := do
  let resp ← callClassifierCompletion env
    ⟨analyzeSystemInstr, .str message, none, true⟩
  let c ← liftE (pyChoice0 resp)
  match c.content with
  | some s => liftE (env.jsonLoads s)
  | none => pyRaise "TypeError: the JSON object must be str, not NoneType"

/-- Embedding of `GmailAgent.analyze_user_intent`: any failure yields the
UNKNOWN fallback, never an exception. -/
def analyzeUserIntent (env : Env) (message : String) : M JVal :=
  tryPy (analyzeBodyM env message) (fun _ => pure unknownIntentResult)

/-- The system instruction of `refine_response_with_gpt` (verbatim). -/
def refineSystemInstr : String :=
  "You are a response refiner. Take the raw output from a Gmail operation and format it into a user-friendly response:\n            - Use bullet points, headers, and emojis for readability.\n            - Summarize long content, keeping key details.\n            - Maintain a professional, concise tone.\n            - Example: For profile, list email, message count, thread count; for labels, confirm creation.\n            Return the refined response as a string."

/-- Embedding of `GmailAgent.refine_response_with_gpt`: one completion
request; the refined content is returned (possibly `None` when the service
returns no content), and any exception returns the input unchanged. -/
def refineResponseWithGPT (env : Env) (raw : JVal) : M JVal :=
  tryPy
    (do
      let resp ← callCompletion env ⟨refineSystemInstr, raw, none, false⟩
      let c ← liftE (pyChoice0 resp)
      pure (match c.content with
            | some s => JVal.str s
            | none => JVal.null))
    (fun _ => pure raw)

/-- The system instruction of `compose_email_with_ai` (verbatim, braces
escaped). -/
def composeSystemInstr : String :=
  "You are a professional email writing assistant. Compose clear, professional emails based on user input.\n            Guidelines:\n            - Use a professional but friendly tone\n            - Include proper greeting and closing\n            - Make the email clear and concise\n            - Adapt formality based on recipient and context\n            - If no subject is provided, create an appropriate one\n            - Expand minimal content professionally\n            Return JSON: \x7b\"subject\": \"Subject line\", \"body\": \"Email body\"\x7d"

/-- The user prompt of `compose_email_with_ai`. -/
def composeUserInstr (recipient subject content context : JVal) : String :=
  "Compose an email for:\n            - Recipient: " ++ pyStr recipient ++
  "\n            - Subject: " ++
  pyStr (if pyTruthy subject then subject else .str "Please create an appropriate subject") ++
  "\n            - Content/Context: " ++
  pyStr (if pyTruthy content then content else context) ++
  "\n            - Additional context: " ++
  pyStr (if jNe context content then context else .str "")

/-- Embedding of `GmailAgent.compose_email_with_ai`: one strict-JSON
completion request parsed with `json.loads`; on any failure the fallback
subject/body pair built from the literal inputs is returned. -/
def composeEmailWithAI (env : Env) (recipient subject content context : JVal) :
    M JVal :=
  tryPy
    (do
      let resp ← callCompletion env
        ⟨composeSystemInstr, .str (composeUserInstr recipient subject content context),
         none, true⟩
      let c ← liftE (pyChoice0 resp)
      match c.content with
      | some s => liftE (env.jsonLoads s)
      | none => pyRaise "TypeError: the JSON object must be str, not NoneType")
    (fun _ => pure (.obj
      [("subject", if pyTruthy subject then subject else .str "Message"),
       ("body", if pyTruthy content then content
                else .str "Hello,\n\nI hope this email finds you well.\n\nBest regards")]))

/-- Join of a Python list of values with a separator: `TypeError` when an
element is not a string, as `str.join` raises. -/
def pyJoinVals (sep : String) (l : List JVal) : Except String String :=
  match l.mapM asStr with
  | .ok strs => .ok (String.intercalate sep strs)
  | .error _ => .error "TypeError: sequence item: expected str instance"

/-- The `query_parts` accumulation shared verbatim by
`_handle_search_emails`, `_handle_move_to_trash` and `_handle_read_email`:
`from:`/`subject:` fragments are f-string interpolations (hence always
strings), while `parameters["query"]` is appended as the raw value. -/
def queryPartsBase (params : JVal) : Except String (List JVal) := do
  let sender ← jGetD params "sender" .null
  let p1 ←
    if pyTruthy sender then do
      let v ← jSub params "sender"
      pure [JVal.str ("from:" ++ pyStr v)]
    else pure []
  let subject ← jGetD params "subject" .null
  let p2 ←
    if pyTruthy subject then do
      let v ← jSub params "subject"
      pure [JVal.str ("subject:" ++ pyStr v)]
    else pure []
  let q ← jGetD params "query" .null
  let p3 ←
    if pyTruthy q then do
      let v ← jSub params "query"
      pure [v]
    else pure []
  pure (p1 ++ p2 ++ p3)

/-- Embedding of `GmailAgent._handle_send_email`. -/
def handleSendEmail (env : Env) (params : JVal) : M JVal :=
  tryPy
    (do
      let recipient ← liftE (jGetD params "recipient" (.str ""))
      if !pyTruthy recipient then
        pure (JVal.obj [("error", .str "No recipient specified")])
      else do
        let subject ← liftE (jGetD params "subject" (.str ""))
        let content ← liftE (jGetD params "content" (.str ""))
        let contextP ← liftE (jGetD params "context" (.str ""))
        let composed ← composeEmailWithAI env recipient subject content contextP
        let cSubj ← liftE (jSub composed "subject")
        let cBody ← liftE (jSub composed "body")
        let prompt := "Send an email to " ++ pyStr recipient ++
          " with:\n            Subject: " ++ pyStr cSubj ++
          "\n            Body: " ++ pyStr cBody
        let st ← getSt
        let resp ← callCompletion env
          ⟨"Use GMAIL_SEND_EMAIL to send emails.", .str prompt, some st.tools, false⟩
        let result ← callGateway env resp
        let formatted := formatResult env.parseDate result
          ("Send email to " ++ pyStr recipient)
        let refined ← refineResponseWithGPT env (.str formatted)
        pure (JVal.obj
          [("success", .bool true),
           ("query", .str ("Send email to " ++ pyStr recipient)),
           ("intent", .str "SEND"),
           ("result", result),
           ("composed_email", composed),
           ("formatted_result", refined)]))
    (fun e => pure (JVal.obj [("success", .bool false), ("error", .str e)]))

/-- Embedding of `GmailAgent._handle_search_emails`. -/
def handleSearchEmails (env : Env) (params : JVal) : M JVal :=
  tryPy
    (do
      let base ← liftE (queryPartsBase params)
      let isSpam ← liftE (jGetD params "is_spam" .null)
      let queryParts :=
        base ++ (if pyTruthy isSpam then [JVal.str "is:spam"] else [])
      let query ←
        if queryParts.isEmpty then pure "recent emails"
        else liftE (pyJoinVals " " queryParts)
      let prompt := "Search Gmail for emails matching: " ++ query ++
        ". Include full details and body content."
      let st ← getSt
      let resp ← callCompletion env
        ⟨"Use GMAIL_FETCH_EMAILS to search and retrieve emails with full content.",
         .str prompt, some st.tools, false⟩
      let result ← callGateway env resp
      let formatted := formatResult env.parseDate result ("Search for: " ++ query)
      let refined ← refineResponseWithGPT env (.str formatted)
      pure (JVal.obj
        [("success", .bool true),
         ("query", .str ("Search for: " ++ query)),
         ("intent", .str "SEARCH"),
         ("result", result),
         ("formatted_result", refined)]))
    (fun e => pure (JVal.obj [("success", .bool false), ("error", .str e)]))

/-- Embedding of `GmailAgent._handle_delete_emails`. -/
def handleDeleteEmails (env : Env) (params : JVal) : M JVal :=
  tryPy
    (do
      let emailId ← liftE (jGetD params "email_id" (.str ""))
      let query0 ← liftE (jGetD params "query" (.str ""))
      let isSpam ← liftE (jGetD params "is_spam" .null)
      let query ←
        if pyTruthy isSpam then
          if pyTruthy query0 then liftE (pyStrAdd "is:spam " query0)
          else pure (JVal.str "is:spam")
        else pure query0
      let qe := if pyTruthy query then query else emailId
      let prompt := "Delete emails matching the criteria: " ++ pyStr qe ++
        ". First search for matching emails, then delete them using GMAIL_DELETE_MESSAGE."
      let st ← getSt
      let resp ← callCompletion env
        ⟨"For DELETE operations, use GMAIL_FETCH_EMAILS to find emails, then GMAIL_DELETE_MESSAGE for each one.",
         .str prompt, some st.tools, false⟩
      let result ← callGateway env resp
      let formatted := formatResult env.parseDate result ("Delete emails: " ++ pyStr qe)
      let refined ← refineResponseWithGPT env (.str formatted)
      pure (JVal.obj
        [("success", .bool true),
         ("query", .str ("Delete emails: " ++ pyStr qe)),
         ("intent", .str "DELETE"),
         ("result", result),
         ("formatted_result", refined)]))
    (fun e => pure (JVal.obj [("success", .bool false), ("error", .str e)]))

/-- Embedding of `GmailAgent._handle_move_to_trash`. -/
def handleMoveToTrash (env : Env) (params : JVal) : M JVal :=
  tryPy
    (do
      let queryParts ← liftE (queryPartsBase params)
      let query ←
        if queryParts.isEmpty then pure "recent emails"
        else liftE (pyJoinVals " " queryParts)
      let prompt := "Move emails matching \x27" ++ query ++
        "\x27 to trash using GMAIL_MOVE_TO_TRASH."
      let st ← getSt
      let resp ← callCompletion env
        ⟨"Use GMAIL_FETCH_EMAILS to find emails, then GMAIL_MOVE_TO_TRASH for each matching email.",
         .str prompt, some st.tools, false⟩
      let result ← callGateway env resp
      let formatted := formatResult env.parseDate result ("Move to trash: " ++ query)
      let refined ← refineResponseWithGPT env (.str formatted)
      pure (JVal.obj
        [("success", .bool true),
         ("query", .str ("Move to trash: " ++ query)),
         ("intent", .str "MOVE_TO_TRASH"),
         ("result", result),
         ("formatted_result", refined)]))
    (fun e => pure (JVal.obj [("success", .bool false), ("error", .str e)]))

/-- Embedding of `GmailAgent._handle_get_contacts`. -/
def handleGetContacts (env : Env) (params : JVal) : M JVal :=
  tryPy
    (do
      let prompt := "Fetch the list of contacts using GMAIL_GET_CONTACTS. Include names and email addresses."
      let st ← getSt
      let resp ← callCompletion env
        ⟨"Use GMAIL_GET_CONTACTS to retrieve contacts with emailAddresses and names.",
         .str prompt, some st.tools, false⟩
      let result ← callGateway env resp
      let dataV ←
        if pyTruthy result then do
          let r0 ← liftE (pyIdx result 0)
          liftE (jGetD r0 "data" (.obj []))
        else pure (JVal.obj [])
      let formatted := formatContacts dataV
      let refined ← refineResponseWithGPT env (.str formatted)
      pure (JVal.obj
        [("success", .bool true),
         ("query", .str "List contacts"),
         ("intent", .str "GET_CONTACTS"),
         ("result", result),
         ("formatted_result", refined)]))
    (fun e => pure (JVal.obj [("success", .bool false), ("error", .str e)]))

/-- Embedding of `GmailAgent._handle_mark_as_read`. -/
def handleMarkAsRead (env : Env) (params : JVal) : M JVal :=
  tryPy
    (do
      let emailId ← liftE (jGetD params "email_id" (.str ""))
      let query ← liftE (jGetD params "query" (.str ""))
      let qe := if pyTruthy query then query else emailId
      let prompt := "Mark emails matching \x27" ++ pyStr qe ++
        "\x27 as read using GMAIL_MARK_AS_READ."
      let st ← getSt
      let resp ← callCompletion env
        ⟨"Use GMAIL_FETCH_EMAILS to find emails, then GMAIL_MARK_AS_READ for each one.",
         .str prompt, some st.tools, false⟩
      let result ← callGateway env resp
      let formatted := formatResult env.parseDate result ("Mark as read: " ++ pyStr qe)
      let refined ← refineResponseWithGPT env (.str formatted)
      pure (JVal.obj
        [("success", .bool true),
         ("query", .str ("Mark as read: " ++ pyStr qe)),
         ("intent", .str "MARK_READ"),
         ("result", result),
         ("formatted_result", refined)]))
    (fun e => pure (JVal.obj [("success", .bool false), ("error", .str e)]))

/-- Embedding of `GmailAgent._handle_mark_as_unread`. -/
def handleMarkAsUnread (env : Env) (params : JVal) : M JVal :=
  tryPy
    (do
      let emailId ← liftE (jGetD params "email_id" (.str ""))
      let query ← liftE (jGetD params "query" (.str ""))
      let qe := if pyTruthy query then query else emailId
      let prompt := "Mark emails matching \x27" ++ pyStr qe ++
        "\x27 as unread using GMAIL_MARK_AS_UNREAD."
      let st ← getSt
      let resp ← callCompletion env
        ⟨"Use GMAIL_FETCH_EMAILS to find emails, then GMAIL_MARK_AS_UNREAD for each one.",
         .str prompt, some st.tools, false⟩
      let result ← callGateway env resp
      let formatted := formatResult env.parseDate result ("Mark as unread: " ++ pyStr qe)
      let refined ← refineResponseWithGPT env (.str formatted)
      pure (JVal.obj
        [("success", .bool true),
         ("query", .str ("Mark as unread: " ++ pyStr qe)),
         ("intent", .str "MARK_UNREAD"),
         ("result", result),
         ("formatted_result", refined)]))
    (fun e => pure (JVal.obj [("success", .bool false), ("error", .str e)]))

/-- Embedding of `GmailAgent._handle_read_email`. -/
def handleReadEmail (env : Env) (params : JVal) : M JVal :=
  tryPy
    (do
      let queryParts ← liftE (queryPartsBase params)
      let query ←
        if queryParts.isEmpty then pure "recent emails"
        else liftE (pyJoinVals " " queryParts)
      let prompt := "Fetch emails matching \x27" ++ query ++
        "\x27 using GMAIL_FETCH_EMAILS and include full body content."
      let st ← getSt
      let resp ← callCompletion env
        ⟨"Use GMAIL_FETCH_EMAILS to retrieve emails with full body content.",
         .str prompt, some st.tools, false⟩
      let result ← callGateway env resp
      let messages ←
        if pyTruthy result then do
          let r0 ← liftE (pyIdx result 0)
          let dataV ← liftE (jGetD r0 "data" (.obj []))
          liftE (jGetD dataV "messages" (.arr []))
        else pure (JVal.arr [])
      let formatted ← liftE (formatEmailsWithFullContent env.parseDate env.b64 messages)
      let refined ← refineResponseWithGPT env (.str formatted)
      pure (JVal.obj
        [("success", .bool true),
         ("query", .str ("Read emails: " ++ query)),
         ("intent", .str "READ"),
         ("result", result),
         ("formatted_result", refined)]))
    (fun e => pure (JVal.obj [("success", .bool false), ("error", .str e)]))

/-- Embedding of `GmailAgent._handle_create_label`. -/
def handleCreateLabel (env : Env) (params : JVal) : M JVal :=
  tryPy
    (do
      let labelName ← liftE (jGetD params "label_name" (.str ""))
      if !pyTruthy labelName then
        pure (JVal.obj [("error", .str "No label name specified")])
      else do
        let prompt := "Create a Gmail label named \x27" ++ pyStr labelName ++
          "\x27 using GMAIL_CREATE_LABEL."
        let st ← getSt
        let resp ← callCompletion env
          ⟨"Use GMAIL_CREATE_LABEL to create a new label.",
           .str prompt, some st.tools, false⟩
        let result ← callGateway env resp
        let formatted := formatResult env.parseDate result
          ("Create label: " ++ pyStr labelName)
        let refined ← refineResponseWithGPT env (.str formatted)
        pure (JVal.obj
          [("success", .bool true),
           ("query", .str ("Create label: " ++ pyStr labelName)),
           ("intent", .str "CREATE_LABEL"),
           ("result", result),
           ("formatted_result", refined)]))
    (fun e => pure (JVal.obj [("success", .bool false), ("error", .str e)]))

/-- Embedding of `GmailAgent._handle_get_profile`. -/
def handleGetProfile (env : Env) (params : JVal) : M JVal :=
  tryPy
    (do
      let prompt := "Fetch Gmail profile information using GMAIL_GET_PROFILE."
      let st ← getSt
      let resp ← callCompletion env
        ⟨"Use GMAIL_GET_PROFILE to retrieve profile details like email address and message counts.",
         .str prompt, some st.tools, false⟩
      let result ← callGateway env resp
      let dataV ←
        if pyTruthy result then do
          let r0 ← liftE (pyIdx result 0)
          liftE (jGetD r0 "data" (.obj []))
        else pure (JVal.obj [])
      let formatted := formatProfile dataV
      let refined ← refineResponseWithGPT env (.str formatted)
      pure (JVal.obj
        [("success", .bool true),
         ("query", .str "Get profile"),
         ("intent", .str "GET_PROFILE"),
         ("result", result),
         ("formatted_result", refined)]))
    (fun e => pure (JVal.obj [("success", .bool false), ("error", .str e)]))

/-- The fall-through branch of `process_query` for unmatched or UNKNOWN
intents: one completion request with the full allowlist in the system
prompt, forwarded to the gateway. -/
def genericToolHandler (env : Env) (cleaned : String) (intent params : JVal) :
    M JVal := do
  let st ← getSt
  let systemInstr := "You are a Gmail assistant for " ++ st.userEmail ++
    " with access to all Gmail tools: " ++ String.intercalate ", " gmailTools ++
    ".\n                Use the most appropriate tool for the user\x27s request. Provide clear, actionable responses."
  let resp ← callCompletion env ⟨systemInstr, .str cleaned, some st.tools, false⟩
  let rawResult ← callGateway env resp
  let c0 ← liftE (pyChoice0 resp)
  pure (JVal.obj
    [("success", .bool true),
     ("query", .str cleaned),
     ("intent", intent),
     ("parameters", params),
     ("result", rawResult),
     ("formatted_result", .str (formatResult env.parseDate rawResult cleaned)),
     ("model_response", .str (contentOrDefault c0.content "Action completed successfully"))])

/-- Case-insensitive literal match at the head of a character list,
consuming it. -/
def stripLitCI : List Char → List Char → Option (List Char)
  | [], cs => some cs
  | l :: ls, c :: cs => if c.toLower = l then stripLitCI ls cs else none
  | _ :: _, [] => none

/-- Greedy `\s+`: consume one or more whitespace characters. -/
def stripWs1 (cs : List Char) : Option (List Char) :=
  match cs with
  | c :: rest => if pyIsSpace c then some (rest.dropWhile pyIsSpace) else none
  | [] => none

/-- The anchored regex `^@composio\s+agent\s+` with `re.IGNORECASE`:
returns the remainder when the prefix matches. -/
def dropAgentTag (cs : List Char) : Option (List Char) := do
  let cs ← stripLitCI "@composio".data cs
  let cs ← stripWs1 cs
  let cs ← stripLitCI "agent".data cs
  let cs ← stripWs1 cs
  pure cs

/-- The query cleanup of `process_query`:
`re.sub(r'^@composio\s+agent\s+', '', user_query, flags=re.IGNORECASE).strip()`. -/
def cleanQuery (q : String) : String :=
  pyStrip
    (match dropAgentTag q.data with
     | some rest => String.mk rest
     | none => q)

/-- The error text returned by the unauthenticated-access guard. -/
def notAuthMsg : String :=
  "Gmail not authenticated. Send \x27Authenticate Gmail\x27 to start auth."

/-- The dispatch table of `process_query` (the chain of
`if intent == ...`). -/
def dispatchIntent (env : Env) (cleaned : String) (intent params : JVal) :
    M JVal :=
  if intent.isStrEq "SEND" then handleSendEmail env params
  else if intent.isStrEq "SEARCH" then handleSearchEmails env params
  else if intent.isStrEq "DELETE" then handleDeleteEmails env params
  else if intent.isStrEq "MOVE_TO_TRASH" then handleMoveToTrash env params
  else if intent.isStrEq "GET_CONTACTS" then handleGetContacts env params
  else if intent.isStrEq "MARK_READ" then handleMarkAsRead env params
  else if intent.isStrEq "MARK_UNREAD" then handleMarkAsUnread env params
  else if intent.isStrEq "READ" then handleReadEmail env params
  else if intent.isStrEq "CREATE_LABEL" then handleCreateLabel env params
  else if intent.isStrEq "GET_PROFILE" then handleGetProfile env params
  else genericToolHandler env cleaned intent params

/-- Embedding of `GmailAgent.process_query`: prefix stripping, intent
classification, the AUTH branch, the unauthenticated-access guard, the
dispatch table with its surrounding `try`/`except`, and the final
re-refinement of `formatted_result`. -/
def processQuery (env : Env) (userQuery : String) : M JVal := do
  let cleaned := cleanQuery userQuery
  let ia ← analyzeUserIntent env cleaned
  let intent ← liftE (jGetD ia "intent" (.str "UNKNOWN"))
  let params ← liftE (jGetD ia "parameters" (.obj []))
  let _confidence ← liftE (jGetD ia "confidence" (.num 0))
  if intent.isStrEq "AUTH" then do
    let authUrl ← initiateAuth env
    pure (JVal.obj
      [("success", .bool true), ("intent", .str "AUTH"),
       ("formatted_result", .str authUrl)])
  else do
    let st ← getSt
    if !isAuthenticated st then
      pure (JVal.obj [("success", .bool false), ("error", .str notAuthMsg)])
    else
      tryPy
        (do
          let result ← dispatchIntent env cleaned intent params
          let fr ← liftE (jGetD result "formatted_result"
            (.str "Action completed successfully"))
          let refined ← refineResponseWithGPT env fr
          liftE (jSet result "formatted_result" refined))
        (fun e => pure (JVal.obj
          [("success", .bool false),
           ("error", .str ("❌ Error processing query: " ++ e)),
           ("query", .str cleaned)]))

/-- An environment in which every external service fails; used as a
concrete witness input. -/
def envFail : Env :=
  ⟨fun _ => .error "boom", fun _ => .error "no gateway",
   fun _ _ => .error "no auth", fun _ => .error "bad json",
   fun _ => .error "bad base64", fun _ => none⟩

/-- A fresh, unauthenticated world: the state `__init__` would produce had
it been called with both arguments, with all counters at zero. -/
def w0 : World := ⟨⟨"user@example.com", "cfg-1", none, none, none⟩, ⟨0, 0, 0, 0⟩⟩

/-- An environment whose classifier reports the AUTH intent and whose
initiation succeeds. -/
def envAuthOk : Env :=
  ⟨fun _ => .ok ⟨[⟨some "x"⟩]⟩, fun _ => .error "no gateway",
   fun _ _ => .ok (7, "https://connect.example"),
   fun _ => .ok (.obj [("intent", .str "AUTH")]),
   fun _ => .error "bad base64", fun _ => none⟩

/-- An environment whose classifier reports the AUTH intent and whose
initiation fails. -/
def envAuthFail : Env :=
  ⟨fun _ => .ok ⟨[⟨some "x"⟩]⟩, fun _ => .error "no gateway",
   fun _ _ => .error "composio unreachable",
   fun _ => .ok (.obj [("intent", .str "AUTH")]),
   fun _ => .error "bad base64", fun _ => none⟩

/-- A gateway message whose only part is a plain-text body with raw
base64url data `d`; the canonical shape `_extract_email_content` decodes. -/
def plainMsg (d : String) : JVal :=
  .obj [("payload", .obj
    [("parts", .arr
      [.obj [("mimeType", .str "text/plain"),
             ("body", .obj [("data", .str d)])]])])]

/-- The three result shapes `_handle_send_email` can produce: the success
dict, the missing-recipient dict (which carries no `success` key at all),
or the caught-exception dict. -/
def sendResultShape (v : JVal) : Prop :=
  jLookup v "success" = some (.bool true) ∨
  v = .obj [("error", .str "No recipient specified")] ∨
  ∃ e, v = .obj [("success", .bool false), ("error", .str e)]

/-- The three result shapes `_handle_create_label` can produce. -/
def labelResultShape (v : JVal) : Prop :=
  jLookup v "success" = some (.bool true) ∨
  v = .obj [("error", .str "No label name specified")] ∨
  ∃ e, v = .obj [("success", .bool false), ("error", .str e)]

/-- A well-formed gateway item whose one message formats cleanly. -/
def c7okItem : JVal :=
  .obj [("successful", .bool true),
        ("data", .obj [("messages", .arr
          [.obj [("subject", .str "Hello"), ("sender", .str "a@b.c")]])])]

/-- A gateway item whose message carries a string where the formatter
expects the `preview` dict, so formatting it raises. -/
def c7badItem : JVal :=
  .obj [("successful", .bool true),
        ("data", .obj [("messages", .arr
          [.obj [("preview", .str "oops")]])])]

/-- Application of `pure` in the agent monad. -/
@[simp] theorem M_pure_apply {α : Type} (a : α) (w : World) :
    (pure a : M α) w = (.ok a, w) := rfl

/-- Application of `bind` in the agent monad. -/
@[simp] theorem M_bind_apply {α β : Type} (x : M α) (f : α → M β) (w : World) :
    (x >>= f) w =
      match x w with
      | (.ok a, w') => f a w'
      | (.error e, w') => (.error e, w') := rfl

/-- Application of `liftE`. -/
@[simp] theorem liftE_apply {α : Type} (x : Except String α) (w : World) :
    liftE x w = (x, w) := rfl

/-- Application of `pyRaise`. -/
@[simp] theorem pyRaise_apply {α : Type} (e : String) (w : World) :
    (pyRaise e : M α) w = (.error e, w) := rfl

/-- Application of `getSt`. -/
@[simp] theorem getSt_apply (w : World) : getSt w = (.ok w.st, w) := rfl

/-- Application of `tryPy`. -/
@[simp] theorem tryPy_apply {α : Type} (body : M α) (h : String → M α)
    (w : World) :
    tryPy body h w =
      match body w with
      | (.ok a, w') => (.ok a, w')
      | (.error e, w') => h e w' := rfl

/-- Application of `callCompletion`. -/
@[simp] theorem callCompletion_apply (env : Env) (req : CompReq) (w : World) :
    callCompletion env req w =
      (env.complete req,
       ⟨w.st, ⟨w.tr.classifierCalls, w.tr.completionCalls + 1,
               w.tr.gatewayCalls, w.tr.authInitiations⟩⟩) := rfl

/-- Application of `callClassifierCompletion`. -/
@[simp] theorem callClassifierCompletion_apply (env : Env) (req : CompReq)
    (w : World) :
    callClassifierCompletion env req w =
      (env.complete req,
       ⟨w.st, ⟨w.tr.classifierCalls + 1, w.tr.completionCalls,
               w.tr.gatewayCalls, w.tr.authInitiations⟩⟩) := rfl

/-- Application of `callGateway`. -/
@[simp] theorem callGateway_apply (env : Env) (resp : Completion) (w : World) :
    callGateway env resp w =
      (env.gateway resp,
       ⟨w.st, ⟨w.tr.classifierCalls, w.tr.completionCalls,
               w.tr.gatewayCalls + 1, w.tr.authInitiations⟩⟩) := rfl

/-- Application of `callInitiate`. -/
@[simp] theorem callInitiate_apply (env : Env) (u a : String) (w : World) :
    callInitiate env u a w =
      (env.initiate u a,
       ⟨w.st, ⟨w.tr.classifierCalls, w.tr.completionCalls,
               w.tr.gatewayCalls, w.tr.authInitiations + 1⟩⟩) := rfl

/-- Application of `modifySt`. -/
@[simp] theorem modifySt_apply (f : AgentState → AgentState) (w : World) :
    modifySt f w = (.ok (), ⟨f w.st, w.tr⟩) := rfl

/-- Bind of a successful `Except`. -/
@[simp] theorem except_bind_ok {α β : Type} (a : α)
    (f : α → Except String β) : (Except.ok a >>= f) = f a := rfl

/-- Bind of a failed `Except`. -/
@[simp] theorem except_bind_error {α β : Type} (e : String)
    (f : α → Except String β) :
    ((Except.error e : Except String α) >>= f) = .error e := rfl

/-- Pure of an `Except` is `ok`. -/
@[simp] theorem except_pure_eq_ok {α : Type} (a : α) :
    (pure a : Except String α) = Except.ok a := rfl

/-- C2: the claim says one Session is created at process start holding the
account identifier and the auth-config reference.  The code cannot do
this: the module-level call passes only `auth_config_id` while `__init__`
requires `user_email`, so Python raises `TypeError` before any Session
exists, whatever the configured id is. -/
theorem c2_module_init_raises_type_error (cfg : String) :
    moduleInit cfg =
      .error "TypeError: __init__ missing 1 required positional argument: user_email" :=
  rfl

/-- C6: whenever the classification body fails (completion error, missing
content, unparsable JSON — any exception), `analyze_user_intent` returns
the fallback `intent UNKNOWN / parameters empty / confidence 0.0`, and it
never propagates an exception to its caller. -/
theorem c6_classifier_failure_degrades_to_unknown (env : Env)
    (message : String) (w : World) :
    (∃ v w1, analyzeUserIntent env message w = (.ok v, w1)) ∧
    (∀ e w1, analyzeBodyM env message w = (.error e, w1) →
      analyzeUserIntent env message w = (.ok unknownIntentResult, w1)) := by
  constructor
  · rcases hb : analyzeBodyM env message w with ⟨res, w1⟩
    cases res with
    | ok v =>
      exact ⟨v, w1, by simp [analyzeUserIntent, hb]⟩
    | error e =>
      exact ⟨unknownIntentResult, w1, by simp [analyzeUserIntent, hb]⟩
  · intro e w1 h
    simp [analyzeUserIntent, h]

/-- C6 witness: with a failing completion service the classifier degrades
to the UNKNOWN fallback on a concrete query. -/
theorem c6_witness :
    analyzeBodyM envFail "delete spam mail" w0 =
      (.error "boom", ⟨w0.st, ⟨1, 0, 0, 0⟩⟩) ∧
    analyzeUserIntent envFail "delete spam mail" w0 =
      (.ok unknownIntentResult, ⟨w0.st, ⟨1, 0, 0, 0⟩⟩) :=
  ⟨rfl,
   (c6_classifier_failure_degrades_to_unknown envFail "delete spam mail" w0).2
     "boom" ⟨w0.st, ⟨1, 0, 0, 0⟩⟩ rfl⟩

/-- C8: when the refiner's completion request fails, the already-formatted
text is returned unchanged (lossless fallback) and no exception escapes;
only the completion counter moves. -/
theorem c8_refiner_failure_returns_input (env : Env) (raw : JVal) (w : World)
    (e : String)
    (h : env.complete ⟨refineSystemInstr, raw, none, false⟩ = .error e) :
    refineResponseWithGPT env raw w =
      (.ok raw,
       ⟨w.st, ⟨w.tr.classifierCalls, w.tr.completionCalls + 1,
               w.tr.gatewayCalls, w.tr.authInitiations⟩⟩) := by
  simp [refineResponseWithGPT, h]

/-- C8 witness: a concrete formatted text survives a failing refiner
unchanged. -/
theorem c8_witness :
    refineResponseWithGPT envFail (.str "📧 Found 2 email(s):") w0 =
      (.ok (.str "📧 Found 2 email(s):"), ⟨w0.st, ⟨0, 1, 0, 0⟩⟩) :=
  c8_refiner_failure_returns_input envFail (.str "📧 Found 2 email(s):") w0
    "boom" rfl

/-- The classifier performs exactly one external call — its own completion
request — so after `analyze_user_intent` the state is unchanged and only
the classifier counter has moved. -/
theorem analyzeUserIntent_world (env : Env) (s : String) (w : World) :
    (analyzeUserIntent env s w).2 =
      ⟨w.st, ⟨w.tr.classifierCalls + 1, w.tr.completionCalls,
              w.tr.gatewayCalls, w.tr.authInitiations⟩⟩ := by
  simp only [analyzeUserIntent, tryPy_apply, analyzeBodyM, M_bind_apply,
    callClassifierCompletion_apply]
  cases hc : env.complete ⟨analyzeSystemInstr, .str s, none, true⟩ with
  | error e => simp
  | ok c =>
    cases hch : pyChoice0 c with
    | error e => simp [hch]
    | ok ch =>
      cases hco : ch.content with
      | none => simp [hch, hco]
      | some str =>
        cases hjl : env.jsonLoads str <;> simp [hch, hco, hjl]

/-- Complete unfolding of `initiate_auth` as a function of the initiation
oracle: on success the connection request is stored and the URL message
returned, on failure the error text is returned; either way the initiation
counter is bumped and no exception escapes. -/
theorem initiateAuth_run (env : Env) (w : World) :
    initiateAuth env w =
      (match env.initiate w.st.userEmail w.st.authConfigId with
       | .ok hu =>
         (.ok (authUrlMsg hu.2),
          ⟨⟨w.st.userEmail, w.st.authConfigId, w.st.tools,
            w.st.connectedAccount, some hu.1⟩,
           ⟨w.tr.classifierCalls, w.tr.completionCalls,
            w.tr.gatewayCalls, w.tr.authInitiations + 1⟩⟩)
       | .error e =>
         (.ok ("Error initiating auth: " ++ e),
          ⟨w.st, ⟨w.tr.classifierCalls, w.tr.completionCalls,
                  w.tr.gatewayCalls, w.tr.authInitiations + 1⟩⟩)) := by
  simp only [initiateAuth, tryPy_apply, M_bind_apply, getSt_apply,
    callInitiate_apply, modifySt_apply, M_pure_apply]
  cases env.initiate w.st.userEmail w.st.authConfigId <;> simp

/-- C1: once the classifier has produced a non-AUTH intent and the Session
is unauthenticated, `process_query` returns the `success=false` /
"not authenticated" result, the state is exactly the post-classification
state, and neither the handler-level completion counter nor the gateway
counter has moved from the start of the query (the only external request
of the whole query was the classification itself). -/
theorem c1_unauthenticated_non_auth_guard (env : Env) (q : String)
    (w w1 : World) (ia intent : JVal)
    (hana : analyzeUserIntent env (cleanQuery q) w = (.ok ia, w1))
    (hint : jGetD ia "intent" (.str "UNKNOWN") = .ok intent)
    (hne : intent.isStrEq "AUTH" = false)
    (hauth : isAuthenticated w1.st = false) :
    processQuery env q w =
      (.ok (.obj [("success", .bool false), ("error", .str notAuthMsg)]), w1) ∧
    w1.tr.completionCalls = w.tr.completionCalls ∧
    w1.tr.gatewayCalls = w.tr.gatewayCalls := by
  have hw1 : w1 = ⟨w.st, ⟨w.tr.classifierCalls + 1, w.tr.completionCalls,
      w.tr.gatewayCalls, w.tr.authInitiations⟩⟩ := by
    have h := analyzeUserIntent_world env (cleanQuery q) w
    rw [hana] at h
    exact h
  refine ⟨?_, by rw [hw1], by rw [hw1]⟩
  have hobj : ∃ fs, ia = .obj fs := by
    cases ia <;> simp [jGetD] at hint
    exact ⟨_, rfl⟩
  rcases hobj with ⟨fs, rfl⟩
  simp only [processQuery, M_bind_apply, liftE_apply, getSt_apply]
  rw [hana]
  simp only [hint]
  simp [jGetD, hne, hauth]

/-- C1 witness: with a failing classifier (hence UNKNOWN intent) and a
fresh unauthenticated Session, a concrete query is rejected without any
completion or gateway call. -/
theorem c1_witness :
    processQuery envFail "list emails" w0 =
      (.ok (.obj [("success", .bool false), ("error", .str notAuthMsg)]),
       ⟨w0.st, ⟨1, 0, 0, 0⟩⟩) ∧
    (⟨w0.st, ⟨1, 0, 0, 0⟩⟩ : World).tr.completionCalls = w0.tr.completionCalls ∧
    (⟨w0.st, ⟨1, 0, 0, 0⟩⟩ : World).tr.gatewayCalls = w0.tr.gatewayCalls :=
  c1_unauthenticated_non_auth_guard envFail "list emails" w0
    ⟨w0.st, ⟨1, 0, 0, 0⟩⟩ unknownIntentResult (.str "UNKNOWN") rfl rfl rfl rfl

/-- C9: a query classified as AUTH always reaches `initiate_auth` —
bumping the initiation counter — and is answered with a `success=true`
result carrying no error field, whatever the Session state (in particular
the unauthenticated-access guard is never applied to it). -/
theorem c9_auth_intent_always_initiates (env : Env) (q : String)
    (w w1 : World) (ia intent : JVal)
    (hana : analyzeUserIntent env (cleanQuery q) w = (.ok ia, w1))
    (hint : jGetD ia "intent" (.str "UNKNOWN") = .ok intent)
    (hAuth : intent.isStrEq "AUTH" = true) :
    ∃ msg w2,
      processQuery env q w =
        (.ok (.obj [("success", .bool true), ("intent", .str "AUTH"),
                    ("formatted_result", .str msg)]), w2) ∧
      w2.tr.authInitiations = w.tr.authInitiations + 1 ∧
      jLookup (.obj [("success", .bool true), ("intent", .str "AUTH"),
                     ("formatted_result", .str msg)]) "error" = none := by
  have hw1 : w1 = ⟨w.st, ⟨w.tr.classifierCalls + 1, w.tr.completionCalls,
      w.tr.gatewayCalls, w.tr.authInitiations⟩⟩ := by
    have h := analyzeUserIntent_world env (cleanQuery q) w
    rw [hana] at h
    exact h
  have hobj : ∃ fs, ia = .obj fs := by
    cases ia <;> simp [jGetD] at hint
    exact ⟨_, rfl⟩
  rcases hobj with ⟨fs, rfl⟩
  simp only [processQuery, M_bind_apply, liftE_apply]
  rw [hana]
  simp only [hint]
  simp only [jGetD, hAuth, eq_self_iff_true, if_true, M_bind_apply]
  rw [initiateAuth_run]
  cases hi : env.initiate w1.st.userEmail w1.st.authConfigId with
  | ok hu =>
    refine ⟨authUrlMsg hu.2,
      ⟨⟨w1.st.userEmail, w1.st.authConfigId, w1.st.tools,
        w1.st.connectedAccount, some hu.1⟩,
       ⟨w1.tr.classifierCalls, w1.tr.completionCalls,
        w1.tr.gatewayCalls, w1.tr.authInitiations + 1⟩⟩, ?_, ?_, rfl⟩
    · rfl
    · rw [hw1]
  | error e =>
    refine ⟨"Error initiating auth: " ++ e,
      ⟨w1.st, ⟨w1.tr.classifierCalls, w1.tr.completionCalls,
               w1.tr.gatewayCalls, w1.tr.authInitiations + 1⟩⟩, ?_, ?_, rfl⟩
    · rfl
    · rw [hw1]

/-- C9 witness: a concrete AUTH-classified query on the unauthenticated
Session initiates the handshake and is answered successfully. -/
theorem c9_witness :
    ∃ msg w2,
      processQuery envAuthOk "authenticate gmail" w0 =
        (.ok (.obj [("success", .bool true), ("intent", .str "AUTH"),
                    ("formatted_result", .str msg)]), w2) ∧
      w2.tr.authInitiations = w0.tr.authInitiations + 1 ∧
      jLookup (.obj [("success", .bool true), ("intent", .str "AUTH"),
                     ("formatted_result", .str msg)]) "error" = none :=
  c9_auth_intent_always_initiates envAuthOk "authenticate gmail" w0
    ⟨w0.st, ⟨1, 0, 0, 0⟩⟩ (.obj [("intent", .str "AUTH")]) (.str "AUTH")
    rfl rfl rfl

/-- C10: when initiating the handshake fails, the AUTH dispatch still
returns `success=true`: the initiation error text is delivered in
`formatted_result` as a normal reply, and the result carries no `error`
field. -/
theorem c10_auth_failure_is_success_reply (env : Env) (q : String)
    (w w1 : World) (ia intent : JVal) (e : String)
    (hana : analyzeUserIntent env (cleanQuery q) w = (.ok ia, w1))
    (hint : jGetD ia "intent" (.str "UNKNOWN") = .ok intent)
    (hAuth : intent.isStrEq "AUTH" = true)
    (hi : env.initiate w1.st.userEmail w1.st.authConfigId = .error e) :
    processQuery env q w =
      (.ok (.obj [("success", .bool true), ("intent", .str "AUTH"),
                  ("formatted_result", .str ("Error initiating auth: " ++ e))]),
       ⟨w1.st, ⟨w1.tr.classifierCalls, w1.tr.completionCalls,
                w1.tr.gatewayCalls, w1.tr.authInitiations + 1⟩⟩) ∧
    jLookup (.obj [("success", .bool true), ("intent", .str "AUTH"),
                   ("formatted_result", .str ("Error initiating auth: " ++ e))])
      "error" = none := by
  have hobj : ∃ fs, ia = .obj fs := by
    cases ia <;> simp [jGetD] at hint
    exact ⟨_, rfl⟩
  rcases hobj with ⟨fs, rfl⟩
  refine ⟨?_, rfl⟩
  simp only [processQuery, M_bind_apply, liftE_apply]
  rw [hana]
  simp only [hint]
  simp only [jGetD, hAuth, eq_self_iff_true, if_true, M_bind_apply]
  rw [initiateAuth_run]
  simp [hi]

/-- C10 witness: a concrete AUTH-classified query with a failing handshake
initiation is still answered with `success=true` carrying the error text
as the reply. -/
theorem c10_witness :
    processQuery envAuthFail "authenticate gmail" w0 =
      (.ok (.obj [("success", .bool true), ("intent", .str "AUTH"),
                  ("formatted_result",
                   .str ("Error initiating auth: " ++ "composio unreachable"))]),
       ⟨w0.st, ⟨1, 0, 0, 1⟩⟩) ∧
    jLookup (.obj [("success", .bool true), ("intent", .str "AUTH"),
                   ("formatted_result",
                    .str ("Error initiating auth: " ++ "composio unreachable"))])
      "error" = none :=
  c10_auth_failure_is_success_reply envAuthFail "authenticate gmail" w0
    ⟨w0.st, ⟨1, 0, 0, 0⟩⟩ (.obj [("intent", .str "AUTH")]) (.str "AUTH")
    "composio unreachable" rfl rfl rfl rfl

/-- Running `_extract_email_content` on the canonical one-plain-part
message: the decode oracle receives exactly the translated-and-padded
data, a successful decode is cleaned, and a decode failure (malformed
base64) yields the empty string. -/
theorem extractEmailContent_plain (dec : String → Except String String)
    (d : String) (hd : d ≠ "") :
    extractEmailContent dec (plainMsg d) =
      (match dec (b64pad (b64urlTranslate d)) with
       | .ok t => cleanEmailText t
       | .error _ => "") := by
  have htr : pyTruthy (JVal.str d) = true := by simp [pyTruthy, hd]
  have hpre : extractEmailContentBody dec (plainMsg d) =
      (if pyTruthy (JVal.str d) = true then
         dec (b64pad (b64urlTranslate d)) >>= fun decoded =>
           (pure (some (cleanEmailText decoded)) : Except String (Option String))
       else pure none) >>= fun fromParts =>
        (match fromParts with
         | some s => (pure s : Except String String)
         | none => pure "") := rfl
  cases hdec : dec (b64pad (b64urlTranslate d)) with
  | ok t =>
    simp only [extractEmailContent, hpre, htr, eq_self_iff_true, if_true,
      hdec, except_bind_ok, except_pure_eq_ok]
  | error e =>
    simp only [extractEmailContent, hpre, htr, eq_self_iff_true, if_true,
      hdec, except_bind_error, except_pure_eq_ok]

/-- C5: the base64url decode step first translates `-` to `+` and `_` to
`/` (a single character map), then pads with `=` (fewer than four of them)
until the length is a multiple of four; the decoder is invoked on exactly
that translated-and-padded string; and any failure inside the extraction —
in particular a decode error on malformed input — produces the empty
string instead of an exception. -/
theorem c5_base64url_decode_step :
    (∀ s : String, (b64pad s).length % 4 = 0) ∧
    (∀ s : String, ∃ k, k < 4 ∧
      b64pad s = s ++ String.mk (List.replicate k '=')) ∧
    (∀ s : String, b64urlTranslate s =
      String.mk (s.data.map fun c =>
        if c = '-' then '+' else if c = '_' then '/' else c)) ∧
    (∀ (dec : String → Except String String) (msg : JVal) (e : String),
      extractEmailContentBody dec msg = .error e →
      extractEmailContent dec msg = "") ∧
    (∀ (dec : String → Except String String) (d : String), d ≠ "" →
      extractEmailContent dec (plainMsg d) =
        (match dec (b64pad (b64urlTranslate d)) with
         | .ok t => cleanEmailText t
         | .error _ => "")) := by
  refine ⟨?_, ?_, ?_, ?_, ?_⟩
  · intro s
    simp only [b64pad, b64padLoop]
    split_ifs with h1 h2 h3 <;>
      simp_all [String.length_append,
        show ("=" : String).length = 1 from rfl] <;> omega
  · intro s
    simp only [b64pad, b64padLoop]
    split_ifs with h1 h2 h3
    · exact ⟨0, by norm_num, by simp⟩
    · exact ⟨1, by norm_num, rfl⟩
    · exact ⟨2, by norm_num, by rw [String.append_assoc]; rfl⟩
    · exact ⟨3, by norm_num,
        by rw [String.append_assoc, String.append_assoc]; rfl⟩
  · intro s
    have hfg : ((fun c => if c = '_' then '/' else c) ∘
        (fun c => if c = '-' then '+' else c)) =
        (fun c => if c = '-' then '+' else if c = '_' then '/' else c) := by
      funext c
      by_cases h1 : c = '-'
      · subst h1; rfl
      · by_cases h2 : c = '_'
        · subst h2; rfl
        · simp [Function.comp, h1, h2]
    simp only [b64urlTranslate, pyReplaceChar, List.map_map, hfg]
  · intro dec msg e h
    simp [extractEmailContent, h]
  · intro dec d hd
    exact extractEmailContent_plain dec d hd

/-- C5 witness: concrete padding, translation and malformed-input
behaviour. -/
theorem c5_witness :
    (b64pad "abcde").length % 4 = 0 ∧
    (∃ k, k < 4 ∧ b64pad "abcde" = "abcde" ++ String.mk (List.replicate k '=')) ∧
    (b64urlTranslate "a-b_c" =
      String.mk ("a-b_c".data.map fun c =>
        if c = '-' then '+' else if c = '_' then '/' else c)) ∧
    extractEmailContent (fun _ => .error "binascii") (.num 3) = "" ∧
    (extractEmailContent (fun _ => .error "binascii") (plainMsg "SGVsbG8-_w") =
      (match (fun (_ : String) => (Except.error "binascii" : Except String String))
          (b64pad (b64urlTranslate "SGVsbG8-_w")) with
       | .ok t => cleanEmailText t
       | .error _ => "")) :=
  ⟨c5_base64url_decode_step.1 "abcde",
   c5_base64url_decode_step.2.1 "abcde",
   c5_base64url_decode_step.2.2.1 "a-b_c",
   c5_base64url_decode_step.2.2.2.1 (fun _ => .error "binascii") (.num 3)
     "AttributeError: object has no attribute get" rfl,
   c5_base64url_decode_step.2.2.2.2 (fun _ => .error "binascii") "SGVsbG8-_w"
     (by decide)⟩

/-- C4: the truncation law of the three display budgets.  An email preview
longer than 200 characters is cut to its first 200 characters plus the
fixed `"..."` marker (unchanged at or under budget); full content uses the
1000-character budget; a draft preview uses the 150-character budget. -/
theorem c4_truncation_budgets :
    (∀ (pd : String → Option String) (s : String), s ≠ "" →
      formatEmails pd (.arr [.obj [("preview", .obj [("body", .str s)])]]) =
        .ok ["📧 Found 1 email(s):", strRepeat "=" 60, "\n📨 Email #1",
             "📋 Subject: No Subject", "👤 From: Unknown Sender",
             "📅 Date: Unknown Date",
             "📝 Preview: " ++
               (if s.length > 200 then s.take 200 ++ "..." else s),
             strRepeat "-" 40]) ∧
    (∀ (pd : String → Option String) (dec : String → Except String String)
       (s : String), dec "AAAA" = .ok s → cleanEmailText s ≠ "" →
      formatEmailsWithFullContent pd dec (.arr [plainMsg "AAAA"]) =
        .ok (pyJoin "\n"
          ["📧 Found 1 email(s):", strRepeat "=" 60, "\n📨 Email #1",
           "📋 Subject: No Subject", "👤 From: Unknown Sender",
           "📅 Date: Unknown Date",
           "📝 Full Content: " ++
             (if (cleanEmailText s).length > 1000 then
                (cleanEmailText s).take 1000 ++ "..."
              else cleanEmailText s),
           strRepeat "-" 40])) ∧
    (∀ (pd : String → Option String) (s : String), s ≠ "" →
      formatDrafts pd
          (.arr [.obj [("message",
            .obj [("preview", .obj [("body", .str s)])])]]) =
        .ok ["📝 Found 1 draft(s):", strRepeat "=" 50, "\n📝 Draft #1",
             "📋 Subject: No Subject", "📅 Created: Unknown Date",
             "📄 Content: " ++
               (if s.length > 150 then s.take 150 ++ "..." else s),
             strRepeat "-" 30]) := by
  refine ⟨?_, ?_, ?_⟩
  · intro pd s hs
    have htr : pyTruthy (JVal.str s) = true := by simp [pyTruthy, hs]
    have h0 : formatEmails pd
        (.arr [.obj [("preview", .obj [("body", .str s)])]]) =
        (do
          let n ← pyLen (JVal.arr [.obj [("preview", .obj [("body", .str s)])]])
          let items ← pyIter (JVal.arr [.obj [("preview", .obj [("body", .str s)])]])
          let body ← formatEmailsAux pd 1 items
          pure (("📧 Found " ++ toString n ++ " email(s):") ::
            strRepeat "=" 60 :: body)) := rfl
    have haux : formatEmailsAux pd 1
        [.obj [("preview", .obj [("body", .str s)])]] =
        ((if pyTruthy (JVal.str s) = true then
            (if s.length > 200 then
               Except.ok ["\n📨 Email #1", "📋 Subject: No Subject",
                 "👤 From: Unknown Sender", "📅 Date: Unknown Date",
                 "📝 Preview: " ++ (s.take 200 ++ "..."), strRepeat "-" 40]
             else
               Except.ok ["\n📨 Email #1", "📋 Subject: No Subject",
                 "👤 From: Unknown Sender", "📅 Date: Unknown Date",
                 "📝 Preview: " ++ s, strRepeat "-" 40])
          else
            Except.ok ["\n📨 Email #1", "📋 Subject: No Subject",
              "👤 From: Unknown Sender", "📅 Date: Unknown Date",
              strRepeat "-" 40]) >>= fun ls =>
          pure (ls ++ ([] : List String))) := rfl
    rw [h0]
    simp only [show pyLen (JVal.arr
        [JVal.obj [("preview", JVal.obj [("body", JVal.str s)])]]) =
        Except.ok 1 from rfl,
      show pyIter (JVal.arr
        [JVal.obj [("preview", JVal.obj [("body", JVal.str s)])]]) =
        Except.ok [JVal.obj [("preview", JVal.obj [("body", JVal.str s)])]]
        from rfl,
      except_bind_ok,
      show ("📧 Found " ++ toString (1 : Nat) ++ " email(s):") =
        "📧 Found 1 email(s):" from rfl,
      haux, htr, eq_self_iff_true, if_true]
    by_cases hlen : s.length > 200
    · simp only [if_pos hlen, except_bind_ok, except_pure_eq_ok]
      rfl
    · simp only [if_neg hlen, except_bind_ok, except_pure_eq_ok]
      rfl
  · intro pd dec s hdec hc
    have hcontent : extractEmailContent dec (plainMsg "AAAA") =
        cleanEmailText s := by
      have h := extractEmailContent_plain dec "AAAA" (by decide)
      rw [show b64pad (b64urlTranslate "AAAA") = "AAAA" from rfl] at h
      rw [hdec] at h
      simpa using h
    calc formatEmailsWithFullContent pd dec (.arr [plainMsg "AAAA"])
        = .ok (pyJoin "\n" ("📧 Found 1 email(s):" :: strRepeat "=" 60 ::
            ((["\n📨 Email #1", "📋 Subject: No Subject",
               "👤 From: Unknown Sender", "📅 Date: Unknown Date"]
              ++ (if extractEmailContent dec (plainMsg "AAAA") ≠ "" then
                    ["📝 Full Content: " ++
                      (if (extractEmailContent dec (plainMsg "AAAA")).length > 1000 then
                         (extractEmailContent dec (plainMsg "AAAA")).take 1000 ++ "..."
                       else extractEmailContent dec (plainMsg "AAAA"))]
                  else ["📝 No content available"])
              ++ [strRepeat "-" 40]) ++ []))) := rfl
      _ = _ := by
        rw [hcontent, if_pos hc]
        rfl
  · intro pd s hs
    have htr : pyTruthy (JVal.str s) = true := by simp [pyTruthy, hs]
    have h0 : formatDrafts pd
        (.arr [.obj [("message",
          .obj [("preview", .obj [("body", .str s)])])]]) =
        (do
          let n ← pyLen (JVal.arr [.obj [("message",
            .obj [("preview", .obj [("body", .str s)])])]])
          let items ← pyIter (JVal.arr [.obj [("message",
            .obj [("preview", .obj [("body", .str s)])])]])
          let body ← formatDraftsAux pd 1 items
          pure (("📝 Found " ++ toString n ++ " draft(s):") ::
            strRepeat "=" 50 :: body)) := rfl
    have haux : formatDraftsAux pd 1
        [.obj [("message", .obj [("preview", .obj [("body", .str s)])])]] =
        ((if pyTruthy (JVal.str s) = true then
            (if s.length > 150 then
               Except.ok ["\n📝 Draft #1", "📋 Subject: No Subject",
                 "📅 Created: Unknown Date",
                 "📄 Content: " ++ (s.take 150 ++ "..."), strRepeat "-" 30]
             else
               Except.ok ["\n📝 Draft #1", "📋 Subject: No Subject",
                 "📅 Created: Unknown Date",
                 "📄 Content: " ++ s, strRepeat "-" 30])
          else
            Except.ok ["\n📝 Draft #1", "📋 Subject: No Subject",
              "📅 Created: Unknown Date", strRepeat "-" 30]) >>= fun ls =>
          pure (ls ++ ([] : List String))) := rfl
    rw [h0]
    simp only [show pyLen (JVal.arr [JVal.obj [("message",
        JVal.obj [("preview", JVal.obj [("body", JVal.str s)])])]]) =
        Except.ok 1 from rfl,
      show pyIter (JVal.arr [JVal.obj [("message",
        JVal.obj [("preview", JVal.obj [("body", JVal.str s)])])]]) =
        Except.ok [JVal.obj [("message",
          JVal.obj [("preview", JVal.obj [("body", JVal.str s)])])]]
        from rfl,
      except_bind_ok,
      show ("📝 Found " ++ toString (1 : Nat) ++ " draft(s):") =
        "📝 Found 1 draft(s):" from rfl,
      haux, htr, eq_self_iff_true, if_true]
    by_cases hlen : s.length > 150
    · simp only [if_pos hlen, except_bind_ok, except_pure_eq_ok]
      rfl
    · simp only [if_neg hlen, except_bind_ok, except_pure_eq_ok]
      rfl

/-- C4 witness: a 201-character preview is truncated at 200 plus the
marker, a short full-content body is shown unchanged, and the draft budget
is 150. -/
theorem c4_witness :
    (formatEmails (fun _ => none)
      (.arr [.obj [("preview",
        .obj [("body", .str (String.mk (List.replicate 201 'a')))])]]) =
      .ok ["📧 Found 1 email(s):", strRepeat "=" 60, "\n📨 Email #1",
           "📋 Subject: No Subject", "👤 From: Unknown Sender",
           "📅 Date: Unknown Date",
           "📝 Preview: " ++
             (if (String.mk (List.replicate 201 'a')).length > 200 then
                (String.mk (List.replicate 201 'a')).take 200 ++ "..."
              else String.mk (List.replicate 201 'a')),
           strRepeat "-" 40]) ∧
    (formatEmailsWithFullContent (fun _ => none) (fun _ => .ok "hello")
      (.arr [plainMsg "AAAA"]) =
      .ok (pyJoin "\n"
        ["📧 Found 1 email(s):", strRepeat "=" 60, "\n📨 Email #1",
         "📋 Subject: No Subject", "👤 From: Unknown Sender",
         "📅 Date: Unknown Date",
         "📝 Full Content: " ++
           (if (cleanEmailText "hello").length > 1000 then
              (cleanEmailText "hello").take 1000 ++ "..."
            else cleanEmailText "hello"),
         strRepeat "-" 40])) ∧
    (formatDrafts (fun _ => none)
      (.arr [.obj [("message", .obj [("preview",
        .obj [("body", .str (String.mk (List.replicate 201 'a')))])])]]) =
      .ok ["📝 Found 1 draft(s):", strRepeat "=" 50, "\n📝 Draft #1",
           "📋 Subject: No Subject", "📅 Created: Unknown Date",
           "📄 Content: " ++
             (if (String.mk (List.replicate 201 'a')).length > 150 then
                (String.mk (List.replicate 201 'a')).take 150 ++ "..."
              else String.mk (List.replicate 201 'a')),
           strRepeat "-" 30]) :=
  ⟨c4_truncation_budgets.1 (fun _ => none)
     (String.mk (List.replicate 201 'a')) (by decide),
   c4_truncation_budgets.2.1 (fun _ => none) (fun _ => .ok "hello")
     "hello" rfl (by decide),
   c4_truncation_budgets.2.2 (fun _ => none)
     (String.mk (List.replicate 201 'a')) (by decide)⟩

/-- A `try` whose handler returns a pure value never lets an exception
escape. -/
theorem tryPy_pure_catch_total {α : Type} (body : M α) (f : String → α)
    (w : World) :
    ∃ v w1, tryPy body (fun e => pure (f e)) w = (.ok v, w1) := by
  rcases hb : body w with ⟨r, w1⟩
  cases r with
  | ok a => exact ⟨a, w1, by simp [hb]⟩
  | error e => exact ⟨f e, w1, by simp [hb]⟩

/-- A `try` whose handler returns a pure value satisfying `P`, over a body
whose successful values satisfy `P`, always returns a `P`-value. -/
theorem tryPy_pure_catch_shape {α : Type} (body : M α) (f : String → α)
    (P : α → Prop) (w : World)
    (hok : ∀ v w1, body w = (.ok v, w1) → P v)
    (hf : ∀ e, P (f e)) :
    ∃ v w1, tryPy body (fun e => pure (f e)) w = (.ok v, w1) ∧ P v := by
  rcases hb : body w with ⟨r, w1⟩
  cases r with
  | ok a => exact ⟨a, w1, by simp [hb], hok a w1 hb⟩
  | error e => exact ⟨f e, w1, by simp [hb], hf e⟩

/-- `compose_email_with_ai` never raises: its `except` falls back to the
literal subject/content pair. -/
theorem composeEmailWithAI_total (env : Env)
    (recipient subject content context : JVal) (w : World) :
    ∃ v w1, composeEmailWithAI env recipient subject content context w =
      (.ok v, w1) :=
  tryPy_pure_catch_total _ _ w

/-- `refine_response_with_gpt` never raises: its `except` returns the
input. -/
theorem refineResponseWithGPT_total (env : Env) (raw : JVal) (w : World) :
    ∃ v w1, refineResponseWithGPT env raw w = (.ok v, w1) :=
  tryPy_pure_catch_total _ _ w

/-- C3 counterexample: `_handle_send_email` with no recipient returns the
bare dict `\x7b"error": "No recipient specified"\x7d`, which carries no
`success` key at all — not the claimed `\x7bsuccess: false, error: ...\x7d`
shape. -/
theorem c3_counterexample :
    handleSendEmail envFail (.obj []) w0 =
      (.ok (.obj [("error", .str "No recipient specified")]), w0) ∧
    jLookup (.obj [("error", .str "No recipient specified")]) "success" =
      none :=
  ⟨rfl, rfl⟩

/-- C3 amended: `_handle_send_email` and `_handle_create_label` never let
an exception escape; every caught exception — whether raised building the
instruction, composing, calling the completion service or calling the
gateway — becomes `\x7bsuccess: false, error: <message>\x7d`; but the
missing-required-parameter early returns produce the bare
`\x7b"error": ...\x7d` dict with no `success` key (merely falsy
downstream), not the claimed shape. -/
theorem c3_amended_handler_failure_shapes (env : Env) (params : JVal)
    (w : World) :
    (∃ v w1, handleSendEmail env params w = (.ok v, w1) ∧ sendResultShape v) ∧
    (∃ v w1, handleCreateLabel env params w = (.ok v, w1) ∧
      labelResultShape v) := by
  constructor
  · unfold handleSendEmail
    apply tryPy_pure_catch_shape
    · intro v w1 hb
      cases params
      case obj fs =>
        simp only [M_bind_apply, liftE_apply, jGetD] at hb
        split at hb
        · simp only [M_pure_apply, Prod.mk.injEq, Except.ok.injEq] at hb
          exact Or.inr (Or.inl hb.1.symm)
        · try simp only [M_bind_apply, liftE_apply] at hb
          split at hb
          · try simp only [M_bind_apply, liftE_apply] at hb
            split at hb
            · try simp only [M_bind_apply, liftE_apply] at hb
              split at hb
              · try simp only [M_bind_apply, getSt_apply,
                  callCompletion_apply] at hb
                split at hb
                · try simp only [M_bind_apply, callGateway_apply] at hb
                  split at hb
                  · try simp only [M_bind_apply] at hb
                    split at hb
                    · simp only [M_pure_apply, Prod.mk.injEq,
                        Except.ok.injEq] at hb
                      exact Or.inl (hb.1 ▸ rfl)
                    · simp at hb
                  · simp at hb
                · simp at hb
              · simp at hb
            · simp at hb
          · simp at hb
      all_goals simp [M_bind_apply, liftE_apply, jGetD] at hb
    · intro e
      exact Or.inr (Or.inr ⟨e, rfl⟩)
  · unfold handleCreateLabel
    apply tryPy_pure_catch_shape
    · intro v w1 hb
      cases params
      case obj fs =>
        simp only [M_bind_apply, liftE_apply, jGetD] at hb
        split at hb
        · simp only [M_pure_apply, Prod.mk.injEq, Except.ok.injEq] at hb
          exact Or.inr (Or.inl hb.1.symm)
        · try simp only [M_bind_apply, getSt_apply, callCompletion_apply] at hb
          split at hb
          · try simp only [M_bind_apply, callGateway_apply] at hb
            split at hb
            · try simp only [M_bind_apply] at hb
              split at hb
              · simp only [M_pure_apply, Prod.mk.injEq,
                  Except.ok.injEq] at hb
                exact Or.inl (hb.1 ▸ rfl)
              · simp at hb
            · simp at hb
          · simp at hb
      all_goals simp [M_bind_apply, liftE_apply, jGetD] at hb
    · intro e
      exact Or.inr (Or.inr ⟨e, rfl⟩)

/-- C7 counterexample: a two-item gateway payload whose second item makes
the formatter raise (its message carries a string where the `preview` dict
is expected).  The whole report is replaced by the single
`Error formatting result: ...` string — the first item's formatted output
(its `Email #1` section) is lost, contrary to the claim that other items
are still produced. -/
theorem c7_counterexample :
    formatResult (fun _ => none) (.arr [c7okItem, c7badItem]) "read emails" =
      "Error formatting result: AttributeError: object has no attribute get" ∧
    strContainsSub
      (formatResult (fun _ => none) (.arr [c7okItem, c7badItem]) "read emails")
      "Email #1" = false :=
  ⟨rfl, by decide⟩

/-- C7 amended: the per-item degradation the code supports is the in-band
one — an item whose payload reports `successful=false` becomes exactly one
inline `❌ Error: ...` line — and when every item formats without raising,
the report is the concatenation of the per-item line blocks, none aborted.
(An exception while formatting an item, by contrast, replaces the whole
report, as the counterexample shows.) -/
theorem c7_amended_per_item_isolation :
    (∀ (pd : String → Option String) (fs : List (String × JVal)),
      pyTruthy ((fs.lookup "successful").getD (.bool false)) = false →
      formatResultItem pd (.obj fs) =
        .ok ["❌ Error: " ++
          pyStr ((fs.lookup "error").getD (.str "Unknown error"))]) ∧
    (∀ (pd : String → Option String) (q : String) (items : List JVal)
       (lss : List (List String)), items ≠ [] →
      List.Forall₂ (fun it ls => formatResultItem pd it = .ok ls) items lss →
      formatResult pd (.arr items) q =
        (if lss.flatten.isEmpty then "✅ Operation completed successfully"
         else pyJoin "\n" lss.flatten)) := by
  constructor
  · intro pd fs hsucc
    simp only [formatResultItem, jGetD, except_bind_ok, hsucc,
      Bool.not_false, if_true, except_pure_eq_ok]
  · intro pd q items lss hne hfa
    have hitems : ∀ (its : List JVal) (ls2 : List (List String)),
        List.Forall₂ (fun it ls => formatResultItem pd it = .ok ls) its ls2 →
        formatItems pd its = .ok ls2.flatten := by
      intro its ls2 h
      induction h with
      | nil => simp [formatItems]
      | cons h1 h2 ih =>
        simp [formatItems, h1, ih, List.flatten]
    rcases items with _ | ⟨it, rest⟩
    · exact absurd rfl hne
    · have hi := hitems (it :: rest) lss hfa
      simp only [formatResult, formatResultBody, pyTruthy, List.isEmpty,
        Bool.not_false, JVal.isArr, Bool.not_true, Bool.false_or, pyIter,
        except_bind_ok, hi, except_pure_eq_ok]
      rfl

/-- C7 witness: a concrete unsuccessful item degrades to one inline error
line, and a two-item payload with one unsuccessful and one well-formed item
yields both blocks in one report. -/
theorem c7_witness :
    formatResultItem (fun _ => none)
      (.obj [("successful", .bool false), ("error", .str "quota exceeded")]) =
      .ok ["❌ Error: " ++
        pyStr ((List.lookup "error"
          [("successful", JVal.bool false),
           ("error", JVal.str "quota exceeded")]).getD
          (.str "Unknown error"))] ∧
    formatResult (fun _ => none)
      (.arr [.obj [("successful", .bool false),
                   ("error", .str "quota exceeded")], c7okItem]) "q" =
      (if ([["❌ Error: quota exceeded"],
            ["📧 Found 1 email(s):", strRepeat "=" 60, "\n📨 Email #1",
             "📋 Subject: Hello", "👤 From: a@b.c", "📅 Date: Unknown Date",
             strRepeat "-" 40]].flatten).isEmpty then
         "✅ Operation completed successfully"
       else pyJoin "\n"
         ([["❌ Error: quota exceeded"],
           ["📧 Found 1 email(s):", strRepeat "=" 60, "\n📨 Email #1",
            "📋 Subject: Hello", "👤 From: a@b.c", "📅 Date: Unknown Date",
            strRepeat "-" 40]].flatten)) :=
  ⟨c7_amended_per_item_isolation.1 (fun _ => none)
     [("successful", .bool false), ("error", .str "quota exceeded")] rfl,
   c7_amended_per_item_isolation.2 (fun _ => none) "q"
     [.obj [("successful", .bool false), ("error", .str "quota exceeded")],
      c7okItem]
     [["❌ Error: quota exceeded"],
      ["📧 Found 1 email(s):", strRepeat "=" 60, "\n📨 Email #1",
       "📋 Subject: Hello", "👤 From: a@b.c", "📅 Date: Unknown Date",
       strRepeat "-" 40]]
     (List.cons_ne_nil _ _)
     (List.Forall₂.cons rfl (List.Forall₂.cons rfl List.Forall₂.nil))⟩
